import Mathlib

/-!
Verification development for the OPTIMUM PRIME ULTIMATE optimizer
(`Phase4_Ultimate.js`, with the shared constants of `App.HarmonyConstants.js`).

The JavaScript source is shallowly embedded as executable Lean definitions:

* machine numbers used by the scoring pipeline are modelled as rationals (`ℚ`);
* JavaScript strings are Lean `String`s; `String(x || '').trim().toUpperCase()`
  is `jsNorm`, with trimming and ASCII upper-casing done on the character list
  so that the kernel can evaluate it;
* JavaScript objects used as string-keyed maps are association lists
  `List (String × _)`, looked up with `objGet` (first matching key);
* `Array.prototype.indexOf` on the header row is `jsIndexOf` (`-1` when absent),
  and reading `row[i]` with a possibly `-1` index is `rowGet` (a JavaScript
  out-of-range read yields `undefined`, which `String(x || '')` turns into `""`);
* the numeric truthiness idiom `x || d` is `jsOr` (`0` is falsy);
* early-`return false` guard chains of the feasibility oracle are rendered as
  boolean conjunctions of the corresponding pass conditions, in source order
  (the guards are pure; the only skipped effect is logging);
* `for` loops that scan an array and break on the first hit are `List.any`;
  accumulator loops are `List.foldl` with a named step function transcribing
  the loop body;
* `Math.random()`-driven sampling is modelled by passing the stream of drawn
  values explicitly: a drawn array position is `r % length` for a draw `r`
  (the source draws `Math.floor(Math.random() * length)`, which ranges over
  exactly the same positions when the array is non-empty), and the
  `Math.random() < 0.2` exploration test is an explicit `Bool`;
* spreadsheet I/O (`loadAndClassifyData_Ultimate`, `saveResults_Ultimate`,
  logging) is out of scope per the specification; the run operates on the
  loaded in-memory snapshot `(allData, byClass, headers)`, where `headers` is
  `none` exactly when the source would have kept `headersRef = null` (no TEST
  sheet contributed a header row plus a data row).  A JavaScript `TypeError`
  crossing the run boundary is modelled as `Except.error`.
-/

/-- ASCII upper-casing of one character, as applied by `toUpperCase()` to the
codes appearing in the data model (LV2/OPT/ASSO/DISSO codes and mobility flags
are plain ASCII). -/
def jsUpperChar (c : Char) : Char :=
  if 97 ≤ c.toNat ∧ c.toNat ≤ 122 then Char.ofNat (c.toNat - 32) else c

/-- Models `String(x || '').trim().toUpperCase()` on a cell already read as a
string (`rowGet` supplies `""` for absent cells). -/
def jsNorm (s : String) : String :=
  String.mk ((((s.toList.dropWhile Char.isWhitespace).reverse.dropWhile
      Char.isWhitespace).reverse).map jsUpperChar)

/-- Models the JavaScript numeric idiom `x || d` (`0` is falsy). -/
def jsOr (x fallback : ℚ) : ℚ :=
  if x = 0 then fallback else x

/-- Models `Array.prototype.indexOf` on the header row: `-1` when absent. -/
def jsIndexOf (l : List String) (s : String) : Int :=
  if l.contains s then (l.indexOf s : Int) else -1

/-- Models `row[i]` for a header index that may be `-1`: an out-of-range read
yields `undefined`, which `String(x || '')` renders as `""`. -/
def rowGet (row : List String) (i : Int) : String :=
  if 0 ≤ i then row.getD i.toNat "" else ""

/-- Property lookup on a JavaScript object modelled as an association list. -/
def objGet {α : Type} (obj : List (String × α)) (key : String) : Option α :=
  match obj with
  | [] => none
  | e :: rest => if e.1 = key then some e.2 else objGet rest key

/-- Models `String.prototype.includes`. -/
def strIncludes (s sub : String) : Bool :=
  decide (sub.toList <:+: s.toList)

/-- A loaded student record, as built by `loadAndClassifyData_Ultimate`
(`Phase4_Ultimate.js` lines 360-374): the raw sheet row plus the derived
fields.  `sexe` is the normalized first character of the SEXE cell, the three
scores default to `2.5` when missing, `mobilite` is the upper-cased
MOBILITE/FIXE cell, and `isHead`/`isNiv1` are the ingestion-time
classification flags. -/
structure Student where
  row : List String
  sexe : String
  COM : ℚ
  TRA : ℚ
  PART : ℚ
  mobilite : String
  isHead : Bool
  isNiv1 : Bool

/-- Placeholder student for the total-function rendering of `allData[idx]`;
never reached on the well-formed states the source manipulates. -/
def defaultStudent : Student :=
  ⟨[], "", 5/2, 5/2, 5/2, "", false, false⟩

/-- Cohort statistics, as returned by `calculateGlobalStats_Ultimate`. -/
structure GlobalStats where
  ratioF : ℚ
  avgCOM : ℚ
  avgTRA : ℚ
  avgPART : ℚ

/-- The parts of the optimization context `ctx` the optimizer core reads.
Each field is optional because the source guards every access with a
truthiness check (`ctx && ctx.targets && ...`).  Targets are per-class target
headcounts (positive integers per the data model), quotas are per-class,
per-code seat counts, and `lv2Universelles` is the list of LV2 codes offered
by every class. -/
structure UltCtx where
  targets : Option (List (String × Nat))
  quotas : Option (List (String × List (String × ℚ)))
  lv2Universelles : Option (List String)

/-- Weights block of `ULTIMATE_CONFIG`. -/
structure UltWeights where
  distrib : ℚ
  parity : ℚ
  profiles : ℚ
  friends : ℚ

/-- Targets block of `ULTIMATE_CONFIG`. -/
structure UltTargets where
  headMin : Nat
  headMax : Nat
  niv1Max : Nat
  niv1Min : Nat

/-- Shape of `ULTIMATE_CONFIG`. -/
structure UltConfig where
  maxSwaps : Nat
  stagnationLimit : Nat
  weights : UltWeights
  targets : UltTargets

/-- `ULTIMATE_CONFIG` (`Phase4_Ultimate.js` lines 19-34). -/
def ULTIMATE_CONFIG : UltConfig :=
  ⟨2000, 50, ⟨5, 4, 10, 1000⟩, ⟨2, 5, 4, 0⟩⟩

/-- `HARMONY_LV2_LIST` (`App.HarmonyConstants.js`). -/
def HARMONY_LV2_LIST : List String := ["ITA", "ESP", "ALL", "PT"]

/-- `HARMONY_OPT_LIST` (`App.HarmonyConstants.js`). -/
def HARMONY_OPT_LIST : List String := ["CHAV", "LATIN", "GREC"]

/-- `isKnownLV2` (`App.HarmonyConstants.js`). -/
def isKnownLV2 (val : String) : Bool :=
  HARMONY_LV2_LIST.contains val

/-- `isKnownOPT` (`App.HarmonyConstants.js`). -/
def isKnownOPT (val : String) : Bool :=
  HARMONY_OPT_LIST.contains val

/-- `isFixed` (`Phase4_Ultimate.js` lines 500-503):
`mob.includes('FIXE') || mob.includes('NON')`. -/
def isFixed (student : Student) : Bool :=
  strIncludes student.mobilite "FIXE" || strIncludes student.mobilite "NON"

/-- Transcribes the truthiness chain
`className && ctx && ctx.targets && ctx.targets[className]`
(`Phase4_Ultimate.js` line 206) guarding the headcount term: the target is
available exactly when every link is truthy (for a natural-number target,
truthy means nonzero). -/
def ctxTarget (ctx : Option UltCtx) (className : String) : Option Nat :=
  if className = "" then none else
  match ctx with
  | none => none
  | some c =>
    match c.targets with
    | none => none
    | some tbl =>
      match objGet tbl className with
      | none => none
      | some t => if t = 0 then none else some t

/-- `calculateScore_Ultimate` (`Phase4_Ultimate.js` lines 199-245). -/
def calculateScore_Ultimate (indices : List Nat) (allData : List Student)
    (globalStats : GlobalStats) (className : String) (ctx : Option UltCtx) : ℚ :=
  let students := indices.map (fun i => allData.getD i defaultStudent)
  let total := students.length
  if total = 0 then 10000 else
  let targetTerm : ℚ :=
    match ctxTarget ctx className with
    | some targetSize => ((total : ℚ) - (targetSize : ℚ)) ^ 2 * 800
    | none => 0
  let nbTetes := (students.filter (fun s => s.isHead)).length
  let nbNiv1 := (students.filter (fun s => s.isNiv1)).length
  let headDeficit : ℚ :=
    if nbTetes < ULTIMATE_CONFIG.targets.headMin then
      ((ULTIMATE_CONFIG.targets.headMin : ℚ) - (nbTetes : ℚ)) ^ 2 * 500
    else 0
  let headExcess : ℚ :=
    if nbTetes > ULTIMATE_CONFIG.targets.headMax then
      ((nbTetes : ℚ) - (ULTIMATE_CONFIG.targets.headMax : ℚ)) * 200
    else 0
  let niv1Excess : ℚ :=
    if nbNiv1 > ULTIMATE_CONFIG.targets.niv1Max then
      ((nbNiv1 : ℚ) - (ULTIMATE_CONFIG.targets.niv1Max : ℚ)) ^ 3 * 100
    else 0
  let nbFilles := (students.filter (fun s => s.sexe == "F")).length
  let ratioF : ℚ := (nbFilles : ℚ) / (total : ℚ)
  let parityTerm : ℚ := |ratioF - globalStats.ratioF| * 1000 * ULTIMATE_CONFIG.weights.parity
  let avgCOM : ℚ := (students.map (fun s => jsOr s.COM (5/2))).sum / (total : ℚ)
  let avgTRA : ℚ := (students.map (fun s => jsOr s.TRA (5/2))).sum / (total : ℚ)
  let avgPART : ℚ := (students.map (fun s => jsOr s.PART (5/2))).sum / (total : ℚ)
  targetTerm + headDeficit + headExcess + niv1Excess + parityTerm
    + |avgCOM - globalStats.avgCOM| * 100 * ULTIMATE_CONFIG.weights.distrib
    + |avgTRA - globalStats.avgTRA| * 100 * ULTIMATE_CONFIG.weights.distrib
    + |avgPART - jsOr globalStats.avgPART (5/2)| * 50 * ULTIMATE_CONFIG.weights.distrib

/-- `calculateGlobalStats_Ultimate` (`Phase4_Ultimate.js` lines 394-409). -/
def calculateGlobalStats_Ultimate (allData : List Student) : GlobalStats :=
  if allData.length = 0 then ⟨1/2, 5/2, 5/2, 5/2⟩ else
  ⟨((allData.filter (fun s => s.sexe == "F")).length : ℚ) / (allData.length : ℚ),
   (allData.map (fun s => s.COM)).sum / (allData.length : ℚ),
   (allData.map (fun s => s.TRA)).sum / (allData.length : ℚ),
   (allData.map (fun s => jsOr s.PART (5/2))).sum / (allData.length : ℚ)⟩

/-- The quotas object of a class:
`(ctx && ctx.quotas && ctx.quotas[clsName]) || {}`. -/
def jsQuotas (ctx : Option UltCtx) (clsName : String) : List (String × ℚ) :=
  match ctx with
  | some c =>
    match c.quotas with
    | some q => (objGet q clsName).getD []
    | none => []
  | none => []

/-- `(ctx && ctx.lv2Universelles) || []`. -/
def jsLv2Universelles (ctx : Option UltCtx) : List String :=
  match ctx with
  | some c => (c.lv2Universelles).getD []
  | none => []

/-- Truthy-and-positive quota test `quotas[code] && quotas[code] > 0`
(equivalently the negation of `!quotas[code] || quotas[code] <= 0`). -/
def quotaPos (quotas : List (String × ℚ)) (code : String) : Bool :=
  match objGet quotas code with
  | some v => decide (0 < v)
  | none => false

/-- The normalized DISSO code of student `i`:
`String(allData[i].row[idxDISSO] || '').trim().toUpperCase()`. -/
def dissoOfIdx (allData : List Student) (idxDISSO : Int) (i : Nat) : String :=
  jsNorm (rowGet (allData.getD i defaultStudent).row idxDISSO)

/-- The normalized ASSO code of student `i`. -/
def assoOfIdx (allData : List Student) (idxASSO : Int) (i : Nat) : String :=
  jsNorm (rowGet (allData.getD i defaultStudent).row idxASSO)

/-- `canSwapStudents_Ultimate` (`Phase4_Ultimate.js` lines 508-642).  The
sequential early-`return false` guards are rendered as a conjunction of pass
conditions, in source order: the ASSO-integrity block (lines 519-540), the
fail-closed DISSO-column check (lines 543-547), the LV2 / OPT / specialization
checks for `s2` entering `cls1` (lines 564-587), the symmetric checks for `s1`
entering `cls2` (lines 593-613), and the two DISSO-conflict scans
(lines 616-639). -/
def canSwapStudents_Ultimate (idx1 idx2 : Nat) (cls1Name cls2Name : String)
    (idxList1 idxList2 : List Nat) (allData : List Student)
    (headers : List String) (ctx : Option UltCtx) : Bool :=
  let s1 := allData.getD idx1 defaultStudent
  let s2 := allData.getD idx2 defaultStudent
  let idxLV2 := jsIndexOf headers "LV2"
  let idxOPT := jsIndexOf headers "OPT"
  let idxDISSO := jsIndexOf headers "DISSO"
  let idxASSO := jsIndexOf headers "ASSO"
  let assoOK : Bool :=
    if 0 ≤ idxASSO then
      let asso_s1 := jsNorm (rowGet s1.row idxASSO)
      let asso_s2 := jsNorm (rowGet s2.row idxASSO)
      (asso_s1 == "" || !(idxList1.any fun idx =>
          idx != idx1 && assoOfIdx allData idxASSO idx == asso_s1))
      &&
      (asso_s2 == "" || !(idxList2.any fun idx =>
          idx != idx2 && assoOfIdx allData idxASSO idx == asso_s2))
    else true
  let lv2_s1 := jsNorm (rowGet s1.row idxLV2)
  let opt_s1 := jsNorm (rowGet s1.row idxOPT)
  let lv2_s2 := jsNorm (rowGet s2.row idxLV2)
  let opt_s2 := jsNorm (rowGet s2.row idxOPT)
  let disso_s1 := dissoOfIdx allData idxDISSO idx1
  let disso_s2 := dissoOfIdx allData idxDISSO idx2
  let quotas1 := jsQuotas ctx cls1Name
  let quotas2 := jsQuotas ctx cls2Name
  let lv2Universelles := jsLv2Universelles ctx
  let lv2OK_s2 : Bool :=
    !(lv2_s2 != "" && !(lv2Universelles.contains lv2_s2) && isKnownLV2 lv2_s2
      && !(quotaPos quotas1 lv2_s2))
  let optOK_s2 : Bool :=
    !(opt_s2 != "" && isKnownOPT opt_s2 && !(quotaPos quotas1 opt_s2))
  let specOK_s2 : Bool :=
    let classHasOptions := quotaPos quotas1 "LATIN" || quotaPos quotas1 "CHAV"
    let studentHasNoOption := opt_s2 == "" || (opt_s2 != "LATIN" && opt_s2 != "CHAV")
    !(classHasOptions && studentHasNoOption && lv2_s2 != "" && lv2_s2 != "ESP")
  let lv2OK_s1 : Bool :=
    !(lv2_s1 != "" && !(lv2Universelles.contains lv2_s1) && isKnownLV2 lv2_s1
      && !(quotaPos quotas2 lv2_s1))
  let optOK_s1 : Bool :=
    !(opt_s1 != "" && isKnownOPT opt_s1 && !(quotaPos quotas2 opt_s1))
  let specOK_s1 : Bool :=
    let class2HasOptions := quotaPos quotas2 "LATIN" || quotaPos quotas2 "CHAV"
    let student1HasNoOption := opt_s1 == "" || (opt_s1 != "LATIN" && opt_s1 != "CHAV")
    !(class2HasOptions && student1HasNoOption && lv2_s1 != "" && lv2_s1 != "ESP")
  let dissoOK_s1 : Bool :=
    !(disso_s1 != "" && idxList2.any fun idx =>
      idx != idx2 &&
        (let otherDisso := dissoOfIdx allData idxDISSO idx
         otherDisso != "" && otherDisso == disso_s1))
  let dissoOK_s2 : Bool :=
    !(disso_s2 != "" && idxList1.any fun idx =>
      idx != idx1 &&
        (let otherDisso := dissoOfIdx allData idxDISSO idx
         otherDisso != "" && otherDisso == disso_s2))
  assoOK && (idxDISSO != -1) && lv2OK_s2 && optOK_s2 && specOK_s2
    && lv2OK_s1 && optOK_s1 && specOK_s1 && dissoOK_s1 && dissoOK_s2

/-- The candidate kept by the two-way search (`bestSwap` object,
`Phase4_Ultimate.js` lines 288-295). -/
structure BestSwap where
  idx1 : Nat
  idx2 : Nat
  cls1 : String
  cls2 : String
  gain : ℚ
  reason : String

/-- The `reason` label of a kept swap (line 294). -/
def swapReason (s1 : Student) : String :=
  "Swap " ++ (if s1.isHead then "Tête" else "Std") ++ "/"
    ++ (if s1.isNiv1 then "Niv1" else "Std")

/-- Body of the sampling loops of `findBestSwapBetween_Ultimate`
(`Phase4_Ultimate.js` lines 262-298), for one sampled pair of positions.  The
source samples `i1` once per outer iteration and reuses it across the inner
loop; flattening to a list of position pairs evaluates exactly the same pairs
in the same row-major order (a fixed `s1` skips every pair it heads, just as
`continue` skips the whole inner loop). -/
def swapSampleStep (cls1Name cls2Name : String) (idxList1 idxList2 : List Nat)
    (allData : List Student) (headers : List String) (globalStats : GlobalStats)
    (ctx : Option UltCtx) (scoreBefore : ℚ)
    (acc : ℚ × Option BestSwap) (draw : Nat × Nat) : ℚ × Option BestSwap :=
  let i1 := idxList1.getD (draw.1 % idxList1.length) 0
  let s1 := allData.getD i1 defaultStudent
  if isFixed s1 then acc else
  let i2 := idxList2.getD (draw.2 % idxList2.length) 0
  let s2 := allData.getD i2 defaultStudent
  if isFixed s2 then acc else
  if !(canSwapStudents_Ultimate i1 i2 cls1Name cls2Name idxList1 idxList2 allData headers ctx)
  then acc else
  let tempList1 := idxList1.filter (fun idx => idx != i1) ++ [i2]
  let tempList2 := idxList2.filter (fun idx => idx != i2) ++ [i1]
  let scoreAfter := calculateScore_Ultimate tempList1 allData globalStats cls1Name ctx
                  + calculateScore_Ultimate tempList2 allData globalStats cls2Name ctx
  let gain := scoreBefore - scoreAfter
  if gain > acc.1 then (gain, some ⟨i1, i2, cls1Name, cls2Name, gain, swapReason s1⟩)
  else acc

/-- `findBestSwapBetween_Ultimate` (`Phase4_Ultimate.js` lines 250-301).
`sampleDraws` is the stream of sampled position pairs (the source draws
`sampleSize × sampleSize` of them). -/
def findBestSwapBetween_Ultimate (cls1Name cls2Name : String) (allData : List Student)
    (byClass : List (String × List Nat)) (headers : List String)
    (globalStats : GlobalStats) (ctx : Option UltCtx)
    (sampleDraws : List (Nat × Nat)) : Option BestSwap :=
  let idxList1 := (objGet byClass cls1Name).getD []
  let idxList2 := (objGet byClass cls2Name).getD []
  let scoreBefore := calculateScore_Ultimate idxList1 allData globalStats cls1Name ctx
                   + calculateScore_Ultimate idxList2 allData globalStats cls2Name ctx
  (sampleDraws.foldl
    (swapSampleStep cls1Name cls2Name idxList1 idxList2 allData headers globalStats ctx scoreBefore)
    ((0 : ℚ), none)).2

/-- Assignment of a new membership list to `byClass[clsName]` (the key set is
unchanged; the source only ever assigns to existing keys). -/
def updateClass (byClass : List (String × List Nat)) (clsName : String)
    (f : List Nat → List Nat) : List (String × List Nat) :=
  byClass.map (fun e => if e.1 = clsName then (e.1, f e.2) else e)

/-- `applySwap_Ultimate` (`Phase4_Ultimate.js` lines 647-679), membership part:
the two sequential assignments of lines 677-678. -/
def applySwap_Ultimate (byClass : List (String × List Nat)) (swap : BestSwap) :
    List (String × List Nat) :=
  let b1 := updateClass byClass swap.cls1
    (fun l => l.filter (fun i => i != swap.idx1) ++ [swap.idx2])
  updateClass b1 swap.cls2
    (fun l => l.filter (fun i => i != swap.idx2) ++ [swap.idx1])

/-- Loop body of `findWorstClass_Ultimate` (`Phase4_Ultimate.js` lines
417-423). -/
def worstStep (allData : List Student) (globalStats : GlobalStats) (ctx : Option UltCtx)
    (acc : ℚ × Option String) (e : String × List Nat) : ℚ × Option String :=
  let score := calculateScore_Ultimate e.2 allData globalStats e.1 ctx
  if score > acc.1 then (score, some e.1) else acc

/-- `findWorstClass_Ultimate` (`Phase4_Ultimate.js` lines 414-425):
`maxScore` starts at `-1`. -/
def findWorstClass_Ultimate (byClass : List (String × List Nat)) (allData : List Student)
    (globalStats : GlobalStats) (ctx : Option UltCtx) : Option String :=
  (byClass.foldl (worstStep allData globalStats ctx) ((-1 : ℚ), none)).2

/-- Loop body of `findPartnerClass_Ultimate` (`Phase4_Ultimate.js` lines
449-487) for one candidate class.  The `-Infinity` initialization of
`bestComplementarity` is modelled by an `Option` accumulator: the first class
that survives the emptiness guard always wins against `none`, exactly as any
rational beats `-Infinity`. -/
def partnerStep (byClass : List (String × List Nat)) (allData : List Student)
    (globalStats : GlobalStats) (worstNbTetes worstNbNiv1 : Nat)
    (worstRatioF worstAvgCOM : ℚ)
    (acc : Option (ℚ × String)) (cls : String) : Option (ℚ × String) :=
  let clsStudents := ((objGet byClass cls).getD []).map (fun i => allData.getD i defaultStudent)
  let clsTotal := clsStudents.length
  if clsTotal = 0 then acc else
  let clsNbTetes := (clsStudents.filter (fun s => s.isHead)).length
  let clsNbNiv1 := (clsStudents.filter (fun s => s.isNiv1)).length
  let clsRatioF : ℚ := ((clsStudents.filter (fun s => s.sexe == "F")).length : ℚ) / (clsTotal : ℚ)
  let clsAvgCOM : ℚ := (clsStudents.map (fun s => s.COM)).sum / (clsTotal : ℚ)
  let teteDiff : ℚ := ((worstNbTetes : ℚ) - (ULTIMATE_CONFIG.targets.headMin : ℚ))
                    - ((clsNbTetes : ℚ) - (ULTIMATE_CONFIG.targets.headMin : ℚ))
  let niv1Diff : ℚ := ((worstNbNiv1 : ℚ) - (ULTIMATE_CONFIG.targets.niv1Max : ℚ))
                    - ((clsNbNiv1 : ℚ) - (ULTIMATE_CONFIG.targets.niv1Max : ℚ))
  let comp0 : ℚ := |teteDiff| * 3 + |niv1Diff| * 3
  let comp1 : ℚ := comp0 +
    (if (worstRatioF > globalStats.ratioF ∧ clsRatioF < globalStats.ratioF)
        ∨ (worstRatioF < globalStats.ratioF ∧ clsRatioF > globalStats.ratioF)
     then 2 else 0)
  let comp : ℚ := comp1 +
    (if (worstAvgCOM > globalStats.avgCOM ∧ clsAvgCOM < globalStats.avgCOM)
        ∨ (worstAvgCOM < globalStats.avgCOM ∧ clsAvgCOM > globalStats.avgCOM)
     then |worstAvgCOM - clsAvgCOM| * 2 else 0)
  match acc with
  | none => some (comp, cls)
  | some best => if comp > best.1 then some (comp, cls) else acc

/-- `findPartnerClass_Ultimate` (`Phase4_Ultimate.js` lines 433-495).
`explore` is the `Math.random() < 0.2` outcome and `pick` the exploration
draw. -/
def findPartnerClass_Ultimate (worstClass : String) (byClass : List (String × List Nat))
    (allData : List Student) (globalStats : GlobalStats)
    (explore : Bool) (pick : Nat) : Option String :=
  let classes := (byClass.map Prod.fst).filter (fun c => c != worstClass)
  if classes.length = 0 then none else
  let worstStudents := ((objGet byClass worstClass).getD []).map
    (fun i => allData.getD i defaultStudent)
  let worstTotal := worstStudents.length
  if worstTotal = 0 then none else
  let worstNbTetes := (worstStudents.filter (fun s => s.isHead)).length
  let worstNbNiv1 := (worstStudents.filter (fun s => s.isNiv1)).length
  let worstRatioF : ℚ := ((worstStudents.filter (fun s => s.sexe == "F")).length : ℚ)
    / (worstTotal : ℚ)
  let worstAvgCOM : ℚ := (worstStudents.map (fun s => s.COM)).sum / (worstTotal : ℚ)
  let bestPartner := classes.foldl
    (partnerStep byClass allData globalStats worstNbTetes worstNbNiv1 worstRatioF worstAvgCOM)
    none
  if explore then some (classes.getD (pick % classes.length) "")
  else
    match bestPartner with
    | some best => some best.2
    | none => none

/-- A three-way rotation candidate (`best3WayU`, `Phase4_Ultimate.js`
line 142): move `a : c1 → c2`, `b : c2 → c3`, `c : c3 → c1`. -/
structure Rot3 where
  a : Nat
  b : Nat
  c : Nat
  c1 : String
  c2 : String
  c3 : String

/-- Body of the student-sampling loop of the three-way phase
(`Phase4_Ultimate.js` lines 120-144) for one sampled triple of positions. -/
def rot3StudentStep (c1 c2 c3 : String) (l1 l2 l3 : List Nat) (allData : List Student)
    (globalStats : GlobalStats) (ctx : Option UltCtx) (headers : List String)
    (scoreBefore3 : ℚ)
    (acc : ℚ × Option Rot3) (draw : Nat × Nat × Nat) : ℚ × Option Rot3 :=
  let a := l1.getD (draw.1 % l1.length) 0
  let b := l2.getD (draw.2.1 % l2.length) 0
  let c := l3.getD (draw.2.2 % l3.length) 0
  if isFixed (allData.getD a defaultStudent) || isFixed (allData.getD b defaultStudent)
      || isFixed (allData.getD c defaultStudent) then acc else
  if !(canSwapStudents_Ultimate a b c1 c2 l1 l2 allData headers ctx) then acc else
  if !(canSwapStudents_Ultimate b c c2 c3 l2 l3 allData headers ctx) then acc else
  let tempC1 := l1.filter (fun x => x != a) ++ [c]
  let tempC2 := l2.filter (fun x => x != b) ++ [a]
  let tempC3 := l3.filter (fun x => x != c) ++ [b]
  let scoreAfter3 := calculateScore_Ultimate tempC1 allData globalStats c1 ctx
                   + calculateScore_Ultimate tempC2 allData globalStats c2 ctx
                   + calculateScore_Ultimate tempC3 allData globalStats c3 ctx
  let gain3 := scoreBefore3 - scoreAfter3
  if gain3 > acc.1 then (gain3, some ⟨a, b, c, c1, c2, c3⟩) else acc

/-- Body of the triple-sampling loop of the three-way phase
(`Phase4_Ultimate.js` lines 109-145) for one sampled class triple with its
student draws. -/
def rot3TripleStep (byClass : List (String × List Nat)) (allData : List Student)
    (globalStats : GlobalStats) (ctx : Option UltCtx) (headers : List String)
    (acc : ℚ × Option Rot3)
    (tDraw : (Nat × Nat × Nat) × List (Nat × Nat × Nat)) : ℚ × Option Rot3 :=
  let classNamesU := byClass.map Prod.fst
  let c1 := classNamesU.getD (tDraw.1.1 % classNamesU.length) ""
  let c2 := classNamesU.getD (tDraw.1.2.1 % classNamesU.length) ""
  let c3 := classNamesU.getD (tDraw.1.2.2 % classNamesU.length) ""
  if c1 == c2 || c2 == c3 || c1 == c3 then acc else
  let l1 := (objGet byClass c1).getD []
  let l2 := (objGet byClass c2).getD []
  let l3 := (objGet byClass c3).getD []
  if l1.isEmpty || l2.isEmpty || l3.isEmpty then acc else
  let scoreBefore3 := calculateScore_Ultimate l1 allData globalStats c1 ctx
                    + calculateScore_Ultimate l2 allData globalStats c2 ctx
                    + calculateScore_Ultimate l3 allData globalStats c3 ctx
  tDraw.2.foldl (rot3StudentStep c1 c2 c3 l1 l2 l3 allData globalStats ctx headers scoreBefore3)
    acc

/-- One outer iteration (`iter3` body) of the three-way search
(`Phase4_Ultimate.js` lines 105-147): fold the sampled class triples starting
from `bestGain3U = 0.001`, `best3WayU = null`. -/
def find3Way_Ultimate (byClass : List (String × List Nat)) (allData : List Student)
    (globalStats : GlobalStats) (ctx : Option UltCtx) (headers : List String)
    (draws : List ((Nat × Nat × Nat) × List (Nat × Nat × Nat))) : ℚ × Option Rot3 :=
  draws.foldl (rot3TripleStep byClass allData globalStats ctx headers) ((1/1000 : ℚ), none)

/-- Application of a selected rotation (`Phase4_Ultimate.js` lines 150-153):
three sequential membership assignments. -/
def applyRot3 (byClass : List (String × List Nat)) (rot : Rot3) :
    List (String × List Nat) :=
  let b1 := updateClass byClass rot.c1 (fun l => l.filter (fun x => x != rot.a) ++ [rot.c])
  let b2 := updateClass b1 rot.c2 (fun l => l.filter (fun x => x != rot.b) ++ [rot.a])
  updateClass b2 rot.c3 (fun l => l.filter (fun x => x != rot.c) ++ [rot.b])

/-- A duplication record of the final validator: class name, DISSO code,
occurrence count, display names. -/
structure DissoDup where
  classe : String
  code : String
  count : Nat
  noms : List String

/-- Result object of `validateDISSOConstraints_Ultimate`. -/
structure DissoValidation where
  ok : Bool
  duplicates : List DissoDup

/-- One step of the per-class occurrence count (`dissoCounts` update,
`Phase4_Ultimate.js` lines 767-784): create or increment the entry of a
non-empty normalized code and record the display name (JavaScript object
insertion order is association-list order). -/
def bumpDissoCount (cnts : List (String × Nat × List String)) (code nom : String) :
    List (String × Nat × List String) :=
  if cnts.any (fun cnt => cnt.1 == code) then
    cnts.map (fun cnt => if cnt.1 = code then (cnt.1, cnt.2.1 + 1, cnt.2.2 ++ [nom]) else cnt)
  else cnts ++ [(code, 1, [nom])]

/-- `validateDISSOConstraints_Ultimate` (`Phase4_Ultimate.js` lines 752-803),
on a non-null header row.  When the DISSO column is absent the source returns
`{ok: true, message: ...}`, modelled as `ok` with no duplicates. -/
def validateDISSOConstraints_Ultimate (allData : List Student)
    (byClass : List (String × List Nat)) (headers : List String) : DissoValidation :=
  let idxDISSO := jsIndexOf headers "DISSO"
  let idxNom := jsIndexOf headers "NOM"
  if idxDISSO = -1 then ⟨true, []⟩ else
  let duplicates := byClass.foldl (fun dups e =>
    let counts := e.2.foldl (fun cnts idx =>
      let student := allData.getD idx defaultStudent
      let disso := jsNorm (rowGet student.row idxDISSO)
      if disso = "" then cnts else
      let nom := if 0 ≤ idxNom then rowGet student.row idxNom
                 else "Élève " ++ toString idx
      bumpDissoCount cnts disso nom) ([] : List (String × Nat × List String))
    dups ++ ((counts.filter (fun cnt => cnt.2.1 > 1)).map
      (fun cnt => DissoDup.mk e.1 cnt.1 cnt.2.1 cnt.2.2))) ([] : List DissoDup)
  ⟨duplicates.isEmpty, duplicates⟩

/-- The random draws consumed by one iteration of the two-way loop: the
exploration flag and partner pick of `findPartnerClass_Ultimate`, and the
sampled position pairs of `findBestSwapBetween_Ultimate`. -/
structure TwoWayDraw where
  explore : Bool
  pick : Nat
  pairs : List (Nat × Nat)

/-- Draws consumed by an iteration whose stream has run out (models further
unconstrained PRNG output). -/
def defaultTwoWayDraw : TwoWayDraw :=
  ⟨false, 0, []⟩

/-- Mutable state of the two-way optimization loop (`Phase4_Ultimate.js`
lines 60-61). -/
structure DriverState where
  byClass : List (String × List Nat)
  swapsApplied : Nat
  stagnationCount : Nat

/-- One iteration of the two-way loop (`Phase4_Ultimate.js` lines 63-98).
The returned flag is `false` when the iteration executes `break` (worst-class
lookup failed, partner stagnation exceeded 10, or `stagnationCount` reached
the stagnation limit), `true` when the loop proceeds to the next iteration. -/
def twoWayStep (allData : List Student) (headers : List String)
    (globalStats : GlobalStats) (ctx : Option UltCtx)
    (draw : TwoWayDraw) (st : DriverState) : DriverState × Bool :=
  match findWorstClass_Ultimate st.byClass allData globalStats ctx with
  | none => (st, false)
  | some worstClassKey =>
    match findPartnerClass_Ultimate worstClassKey st.byClass allData globalStats
        draw.explore draw.pick with
    | none =>
      let sc := st.stagnationCount + 1
      if sc > 10 then (⟨st.byClass, st.swapsApplied, sc⟩, false)
      else (⟨st.byClass, st.swapsApplied, sc⟩, true)
    | some partnerClassKey =>
      let bestSwap := findBestSwapBetween_Ultimate worstClassKey partnerClassKey allData
        st.byClass headers globalStats ctx draw.pairs
      let st1 : DriverState :=
        match bestSwap with
        | some bs =>
          if bs.gain > 1/10000 then
            ⟨applySwap_Ultimate st.byClass bs, st.swapsApplied + 1, 0⟩
          else ⟨st.byClass, st.swapsApplied, st.stagnationCount + 1⟩
        | none => ⟨st.byClass, st.swapsApplied, st.stagnationCount + 1⟩
      if st1.stagnationCount ≥ ULTIMATE_CONFIG.stagnationLimit then (st1, false)
      else (st1, true)

/-- The two-way loop, bounded by `maxSwaps` iterations, consuming one draw
packet per iteration. -/
def twoWayLoop (allData : List Student) (headers : List String)
    (globalStats : GlobalStats) (ctx : Option UltCtx) :
    Nat → List TwoWayDraw → DriverState → DriverState
  | 0, _, st => st
  | Nat.succ fuel, draws, st =>
    let step := twoWayStep allData headers globalStats ctx (draws.headD defaultTwoWayDraw) st
    if step.2 then twoWayLoop allData headers globalStats ctx fuel draws.tail step.1
    else step.1

/-- The three-way phase (`Phase4_Ultimate.js` lines 105-156): up to 200 outer
iterations, each selecting a best rotation from its sampled triples and
applying it, stopping as soon as no rotation is selected. -/
def threeWayLoop (allData : List Student) (headers : List String)
    (globalStats : GlobalStats) (ctx : Option UltCtx) :
    Nat → List (List ((Nat × Nat × Nat) × List (Nat × Nat × Nat))) →
    List (String × List Nat) × Nat → List (String × List Nat) × Nat
  | 0, _, st => st
  | Nat.succ fuel, draws, st =>
    match (find3Way_Ultimate st.1 allData globalStats ctx headers (draws.headD [])).2 with
    | none => st
    | some rot =>
      threeWayLoop allData headers globalStats ctx fuel draws.tail (applyRot3 st.1 rot, st.2 + 1)

/-- Result object of `Phase4_Ultimate_Run` (`Phase4_Ultimate.js` lines
178-184); `saveResult` is spreadsheet I/O and out of scope. -/
structure RunResult where
  ok : Bool
  swapsApplied : Nat
  swaps3Way : Nat
  validationOk : Bool

/-- `Phase4_Ultimate_Run` (`Phase4_Ultimate.js` lines 41-185) on the loaded
in-memory snapshot.  `headers` is `none` exactly when the source load kept
`headersRef = null`, which in the source forces `allData = []` and
`byClass = {}` (a student row is pushed only after `headersRef` is set); in
that case the final call `validateDISSOConstraints_Ultimate(allData, byClass,
headers)` dereferences `null.indexOf` and the run throws a `TypeError`,
modelled as `Except.error`.  The two loops never dereference the headers on
such a snapshot (no class exists, so no feasibility check runs), so passing
the `[]` placeholder to them is faithful. -/
def Phase4_Ultimate_Run (allData : List Student) (byClass : List (String × List Nat))
    (headers : Option (List String)) (ctx : Option UltCtx)
    (twoWayDraws : List TwoWayDraw)
    (threeWayDraws : List (List ((Nat × Nat × Nat) × List (Nat × Nat × Nat)))) :
    Except String RunResult :=
  let globalStats := calculateGlobalStats_Ultimate allData
  let hdrs := headers.getD []
  let stFinal := twoWayLoop allData hdrs globalStats ctx ULTIMATE_CONFIG.maxSwaps twoWayDraws
    ⟨byClass, 0, 0⟩
  let phase3 := threeWayLoop allData hdrs globalStats ctx 200 threeWayDraws (stFinal.byClass, 0)
  match headers with
  | none => Except.error "TypeError: Cannot read properties of null (reading indexOf)"
  | some h =>
    let validationResult := validateDISSOConstraints_Ultimate allData phase3.1 h
    Except.ok ⟨true, stFinal.swapsApplied + phase3.2, phase3.2, validationResult.ok⟩

/-- The antinomy invariant for one membership list: no two students of the
list share the same non-empty normalized DISSO code (the codes of the members,
restricted to non-empty ones, are pairwise distinct). -/
def noDissoDup (allData : List Student) (idxDISSO : Int) (l : List Nat) : Prop :=
  ((l.map (dissoOfIdx allData idxDISSO)).filter (fun code => code != "")).Nodup

/-- Student `i` is a member of class `clsName` in the given assignment. -/
def memberOf (byClass : List (String × List Nat)) (clsName : String) (i : Nat) : Prop :=
  ∃ l, (clsName, l) ∈ byClass ∧ i ∈ l

/-- The sum of the class scores over the whole assignment. -/
def totalScoreU (byClass : List (String × List Nat)) (allData : List Student)
    (globalStats : GlobalStats) (ctx : Option UltCtx) : ℚ :=
  (byClass.map (fun e => calculateScore_Ultimate e.2 allData globalStats e.1 ctx)).sum

/-- Facts holding of every rotation candidate selected by the three-way
sampling pass, relative to the assignment it was drawn from: the three classes
are pairwise distinct existing classes, the three students are movable, the
two pairwise feasibility checks of the source were passed, and the recorded
gain is the score of the three touched classes before the rotation minus
after, strictly above the 0.001 acceptance threshold. -/
def Rot3Selected (byClass : List (String × List Nat)) (allData : List Student)
    (globalStats : GlobalStats) (ctx : Option UltCtx) (headers : List String)
    (gain : ℚ) (r : Rot3) : Prop :=
  r.c1 ≠ r.c2 ∧ r.c2 ≠ r.c3 ∧ r.c1 ≠ r.c3
  ∧ (objGet byClass r.c1).isSome = true
  ∧ (objGet byClass r.c2).isSome = true
  ∧ (objGet byClass r.c3).isSome = true
  ∧ isFixed (allData.getD r.a defaultStudent) = false
  ∧ isFixed (allData.getD r.b defaultStudent) = false
  ∧ isFixed (allData.getD r.c defaultStudent) = false
  ∧ canSwapStudents_Ultimate r.a r.b r.c1 r.c2
      ((objGet byClass r.c1).getD []) ((objGet byClass r.c2).getD []) allData headers ctx = true
  ∧ canSwapStudents_Ultimate r.b r.c r.c2 r.c3
      ((objGet byClass r.c2).getD []) ((objGet byClass r.c3).getD []) allData headers ctx = true
  ∧ 1/1000 < gain
  ∧ gain = (calculateScore_Ultimate ((objGet byClass r.c1).getD []) allData globalStats r.c1 ctx
        + calculateScore_Ultimate ((objGet byClass r.c2).getD []) allData globalStats r.c2 ctx
        + calculateScore_Ultimate ((objGet byClass r.c3).getD []) allData globalStats r.c3 ctx)
      - (calculateScore_Ultimate
          (((objGet byClass r.c1).getD []).filter (fun x => x != r.a) ++ [r.c])
          allData globalStats r.c1 ctx
        + calculateScore_Ultimate
          (((objGet byClass r.c2).getD []).filter (fun x => x != r.b) ++ [r.a])
          allData globalStats r.c2 ctx
        + calculateScore_Ultimate
          (((objGet byClass r.c3).getD []).filter (fun x => x != r.c) ++ [r.b])
          allData globalStats r.c3 ctx)

/-- A demo student for concrete runs of the search paths: all scores 2.5,
movable, a single empty DISSO cell. -/
def demoStudent (sexe : String) : Student :=
  ⟨[""], sexe, 5/2, 5/2, 5/2, "", false, false⟩

/-- Demo cohort: two girls, two boys, and one fixed girl. -/
def demoData : List Student :=
  [demoStudent "F", demoStudent "F", demoStudent "M", demoStudent "M",
   ⟨[""], "F", 5/2, 5/2, 5/2, "FIXE", false, false⟩]

/-- Demo assignment: the girls in class A, the boys in class B, the fixed
student alone in class C. -/
def demoByClass : List (String × List Nat) :=
  [("A", [0, 1]), ("B", [2, 3]), ("C", [4])]

/-- Demo cohort statistics (consistent with `demoData`). -/
def demoStats : GlobalStats :=
  ⟨1/2, 5/2, 5/2, 5/2⟩

/-- Demo header row: only the DISSO column. -/
def demoHeaders : List String :=
  ["DISSO"]

/-- Cohort for the unchecked-third-leg scenario: student 0 (movable, no code)
and student 1 (code X, weak scores) in class A, student 2 (no code) in class
B, student 3 (code X, strong scores) in class C. -/
def rotData : List Student :=
  [⟨[""], "M", 5/2, 5/2, 5/2, "", false, false⟩,
   ⟨["X"], "M", 1, 5/2, 5/2, "", false, true⟩,
   ⟨[""], "M", 5/2, 5/2, 5/2, "", false, false⟩,
   ⟨["X"], "M", 4, 5/2, 5/2, "", true, false⟩]

/-- Assignment for the unchecked-third-leg scenario. -/
def rotByClass : List (String × List Nat) :=
  [("A", [0, 1]), ("B", [2]), ("C", [3])]

/-- Statistics for the unchecked-third-leg scenario (all-male cohort). -/
def rotStats : GlobalStats :=
  ⟨0, 5/2, 5/2, 5/2⟩

/-- Header row for the unchecked-third-leg scenario. -/
def rotHeaders : List String :=
  ["DISSO"]

/-- Spec-side score formula, written from the specification (section 4.2) and
claim C2 wording: 10000 for an empty class, otherwise the sum of the headcount
term `(n - target)^2 * 800`, the conditional heads-min, heads-max and low-tier
terms, the gender term with weight `1000 * 4.0`, and the three academic terms
with weights `100 * 5.0`, `100 * 5.0`, `50 * 5.0`. -/
def specScore_C2 (indices : List Nat) (allData : List Student)
    (globalStats : GlobalStats) (target : Nat) : ℚ :=
  let students := indices.map (fun i => allData.getD i defaultStudent)
  let n := students.length
  if n = 0 then 10000 else
  let h := (students.filter (fun s => s.isHead)).length
  let lowTier := (students.filter (fun s => s.isNiv1)).length
  ((n : ℚ) - (target : ℚ)) ^ 2 * 800
  + (if h < 2 then ((2 : ℚ) - (h : ℚ)) ^ 2 * 500 else 0)
  + (if h > 5 then ((h : ℚ) - (5 : ℚ)) * 200 else 0)
  + (if lowTier > 4 then ((lowTier : ℚ) - (4 : ℚ)) ^ 3 * 100 else 0)
  + |((students.filter (fun s => s.sexe == "F")).length : ℚ) / (n : ℚ) - globalStats.ratioF|
      * 1000 * (4 : ℚ)
  + |(students.map (fun s => s.COM)).sum / (n : ℚ) - globalStats.avgCOM| * 100 * (5 : ℚ)
  + |(students.map (fun s => s.TRA)).sum / (n : ℚ) - globalStats.avgTRA| * 100 * (5 : ℚ)
  + |(students.map (fun s => s.PART)).sum / (n : ℚ) - globalStats.avgPART| * 50 * (5 : ℚ)

/-- A rational class score is never negative: every summand of
`calculateScore_Ultimate` is non-negative, and the empty-class sentinel is
10000. -/
lemma calculateScore_nonneg (indices : List Nat) (allData : List Student)
    (globalStats : GlobalStats) (className : String) (ctx : Option UltCtx) :
    0 ≤ calculateScore_Ultimate indices allData globalStats className ctx := by
  unfold calculateScore_Ultimate
  split <;> (dsimp only; split)
  · norm_num
  · refine add_nonneg (add_nonneg (add_nonneg (add_nonneg (add_nonneg
      (add_nonneg (add_nonneg ?_ ?_) ?_) ?_) ?_) ?_) ?_) ?_
    · positivity
    · split
      · positivity
      · exact le_refl 0
    · split
      · next hgt =>
        have hq := (Nat.cast_lt (α := ℚ)).mpr hgt
        nlinarith [hq]
      · exact le_refl 0
    · split
      · next hgt =>
        have hq := (Nat.cast_lt (α := ℚ)).mpr hgt
        exact mul_nonneg (pow_nonneg (by linarith) 3) (by norm_num)
      · exact le_refl 0
    · simp only [ULTIMATE_CONFIG]; positivity
    · simp only [ULTIMATE_CONFIG]; positivity
    · simp only [ULTIMATE_CONFIG]; positivity
    · simp only [ULTIMATE_CONFIG]; positivity
  · norm_num
  · refine add_nonneg (add_nonneg (add_nonneg (add_nonneg (add_nonneg
      (add_nonneg (add_nonneg ?_ ?_) ?_) ?_) ?_) ?_) ?_) ?_
    · exact le_refl 0
    · split
      · positivity
      · exact le_refl 0
    · split
      · next hgt =>
        have hq := (Nat.cast_lt (α := ℚ)).mpr hgt
        nlinarith [hq]
      · exact le_refl 0
    · split
      · next hgt =>
        have hq := (Nat.cast_lt (α := ℚ)).mpr hgt
        exact mul_nonneg (pow_nonneg (by linarith) 3) (by norm_num)
      · exact le_refl 0
    · simp only [ULTIMATE_CONFIG]; positivity
    · simp only [ULTIMATE_CONFIG]; positivity
    · simp only [ULTIMATE_CONFIG]; positivity
    · simp only [ULTIMATE_CONFIG]; positivity

/-- Fold invariant preservation for `List.foldl`. -/
lemma foldl_preserve {α β : Type} (P : β → Prop) (f : β → α → β) :
    ∀ (l : List α) (b : β), P b → (∀ acc a, a ∈ l → P acc → P (f acc a)) →
      P (l.foldl f b) := by
  intro l
  induction l with
  | nil => intro b hb _; exact hb
  | cons x xs ih =>
    intro b hb hf
    exact ih (f b x) (hf b x (List.mem_cons_self x xs) hb)
      (fun acc a ha hacc => hf acc a (List.mem_cons_of_mem x ha) hacc)

/-- C2.  For every class membership list, cohort statistics, and context with
default configuration providing a (positive) target for the class, and with
the score cells non-falsy (the loader never stores a zero score; missing
scores already defaulted to 2.5 at ingestion), `calculateScore_Ultimate`
returns exactly the sum specified by the claim: 10000 when the class is empty;
otherwise `(n - target)^2 * 800`, plus `(head_min - h)^2 * 500` when
`h < head_min = 2`, plus `(h - head_max) * 200` when `h > head_max = 5`, plus
`(l - niv1_max)^3 * 100` when `l > niv1_max = 4`, plus the gender term with
weight `1000 * 4.0` and the three academic terms with weights `100 * 5.0`,
`100 * 5.0` and `50 * 5.0`. -/
theorem C2_calculateScore_matches_spec
    (indices : List Nat) (allData : List Student) (globalStats : GlobalStats)
    (className : String) (ctx : UltCtx) (tbl : List (String × Nat)) (t : Nat)
    (hcn : className ≠ "") (htbl : ctx.targets = some tbl)
    (ht : objGet tbl className = some t) (ht0 : t ≠ 0)
    (hCOM : ∀ i ∈ indices, (allData.getD i defaultStudent).COM ≠ 0)
    (hTRA : ∀ i ∈ indices, (allData.getD i defaultStudent).TRA ≠ 0)
    (hPART : ∀ i ∈ indices, (allData.getD i defaultStudent).PART ≠ 0)
    (hgs : globalStats.avgPART ≠ 0) :
    calculateScore_Ultimate indices allData globalStats className (some ctx)
      = specScore_C2 indices allData globalStats t := by
  have hct : ctxTarget (some ctx) className = some t := by
    simp only [ctxTarget, htbl, ht, if_neg hcn, if_neg ht0]
  have hmCOM : (indices.map (fun i => allData.getD i defaultStudent)).map
        (fun s => jsOr s.COM (5/2))
      = (indices.map (fun i => allData.getD i defaultStudent)).map (fun s => s.COM) := by
    rw [List.map_map, List.map_map]
    refine List.map_congr_left (fun i hi => ?_)
    simp only [Function.comp_apply, jsOr, if_neg (hCOM i hi)]
  have hmTRA : (indices.map (fun i => allData.getD i defaultStudent)).map
        (fun s => jsOr s.TRA (5/2))
      = (indices.map (fun i => allData.getD i defaultStudent)).map (fun s => s.TRA) := by
    rw [List.map_map, List.map_map]
    refine List.map_congr_left (fun i hi => ?_)
    simp only [Function.comp_apply, jsOr, if_neg (hTRA i hi)]
  have hmPART : (indices.map (fun i => allData.getD i defaultStudent)).map
        (fun s => jsOr s.PART (5/2))
      = (indices.map (fun i => allData.getD i defaultStudent)).map (fun s => s.PART) := by
    rw [List.map_map, List.map_map]
    refine List.map_congr_left (fun i hi => ?_)
    simp only [Function.comp_apply, jsOr, if_neg (hPART i hi)]
  have hjs : jsOr globalStats.avgPART (5/2) = globalStats.avgPART := by
    simp only [jsOr, if_neg hgs]
  unfold calculateScore_Ultimate specScore_C2
  rw [hct]
  dsimp only
  rw [hmCOM, hmTRA, hmPART, hjs]
  norm_num [ULTIMATE_CONFIG]

/-- Witness for C2 at a concrete two-student class with target 2. -/
theorem C2_calculateScore_matches_spec_witness :
    calculateScore_Ultimate [0, 1]
        [⟨[], "F", 3, 3, 3, "", false, false⟩, ⟨[], "M", 2, 2, 2, "", false, false⟩]
        ⟨1/2, 5/2, 5/2, 5/2⟩ "A" (some ⟨some [("A", 2)], none, none⟩)
      = specScore_C2 [0, 1]
        [⟨[], "F", 3, 3, 3, "", false, false⟩, ⟨[], "M", 2, 2, 2, "", false, false⟩]
        ⟨1/2, 5/2, 5/2, 5/2⟩ 2 := by
  refine C2_calculateScore_matches_spec _ _ _ _ _ _ _ (by decide) rfl (by decide) (by decide)
    ?_ ?_ ?_ (by norm_num)
  all_goals
    intro i hi
    rcases List.mem_cons.mp hi with h | h
    · subst h; norm_num
    · rcases List.mem_cons.mp h with h2 | h2
      · subst h2; norm_num
      · cases h2

/-- C10.  The headcount-deviation term of `calculateScore_Ultimate` is
conditional on the context: for a non-empty class, when the truthiness chain
`className && ctx && ctx.targets && ctx.targets[className]` yields no
(positive) target the score equals the score computed with no context at all
(so it is independent of the size deviation), and when it yields a target `t`
the score is exactly `(n - t)^2 * 800` more than the context-free score. -/
theorem C10_headcount_term_conditional
    (indices : List Nat) (allData : List Student) (globalStats : GlobalStats)
    (className : String) (hne : indices ≠ []) :
    (∀ ctx : Option UltCtx, ctxTarget ctx className = none →
      calculateScore_Ultimate indices allData globalStats className ctx
        = calculateScore_Ultimate indices allData globalStats className none)
    ∧ (∀ (c : UltCtx) (t : Nat), ctxTarget (some c) className = some t →
      calculateScore_Ultimate indices allData globalStats className (some c)
        = ((indices.length : ℚ) - (t : ℚ)) ^ 2 * 800
          + calculateScore_Ultimate indices allData globalStats className none) := by
  have hnone : ctxTarget none className = none := by
    unfold ctxTarget; split <;> rfl
  have hlen : (indices.map (fun i => allData.getD i defaultStudent)).length ≠ 0 := by
    simpa [List.length_map] using (fun h => hne (List.eq_nil_of_length_eq_zero h))
  constructor
  · intro ctx h
    unfold calculateScore_Ultimate
    rw [h, hnone]
  · intro c t h
    unfold calculateScore_Ultimate
    rw [h, hnone, if_neg hlen, if_neg hlen]
    simp only [List.length_map]
    ring

/-- Witness for C10: a class with no entry in the target table scores as with
no context, and a class with target 2 gains exactly the quadratic term. -/
theorem C10_headcount_term_conditional_witness :
    (calculateScore_Ultimate [0] [⟨[], "F", 3, 3, 3, "", false, false⟩]
        ⟨1/2, 5/2, 5/2, 5/2⟩ "A" (some ⟨some [("B", 3)], none, none⟩)
      = calculateScore_Ultimate [0] [⟨[], "F", 3, 3, 3, "", false, false⟩]
        ⟨1/2, 5/2, 5/2, 5/2⟩ "A" none)
    ∧ (calculateScore_Ultimate [0] [⟨[], "F", 3, 3, 3, "", false, false⟩]
        ⟨1/2, 5/2, 5/2, 5/2⟩ "A" (some ⟨some [("A", 2)], none, none⟩)
      = ((1 : ℚ) - (2 : ℚ)) ^ 2 * 800
        + calculateScore_Ultimate [0] [⟨[], "F", 3, 3, 3, "", false, false⟩]
          ⟨1/2, 5/2, 5/2, 5/2⟩ "A" none) := by
  constructor
  · exact (C10_headcount_term_conditional [0] _ _ "A" (by decide)).1 _ (by decide)
  · have h := (C10_headcount_term_conditional [0]
      [⟨[], "F", 3, 3, 3, "", false, false⟩] ⟨1/2, 5/2, 5/2, 5/2⟩ "A" (by decide)).2
      ⟨some [("A", 2)], none, none⟩ 2 (by decide)
    simpa using h

/-- C3.  Fail-closed oracle: when the header row has no DISSO column, every
feasibility query answers `false`, and consequently the two-way search never
selects a candidate, whatever was sampled. -/
theorem C3_missing_disso_fail_closed
    (headers : List String) (hmiss : jsIndexOf headers "DISSO" = -1) :
    (∀ (idx1 idx2 : Nat) (cls1Name cls2Name : String) (idxList1 idxList2 : List Nat)
      (allData : List Student) (ctx : Option UltCtx),
      canSwapStudents_Ultimate idx1 idx2 cls1Name cls2Name idxList1 idxList2 allData headers ctx
        = false)
    ∧ (∀ (cls1Name cls2Name : String) (allData : List Student)
      (byClass : List (String × List Nat)) (globalStats : GlobalStats)
      (ctx : Option UltCtx) (sampleDraws : List (Nat × Nat)),
      findBestSwapBetween_Ultimate cls1Name cls2Name allData byClass headers globalStats ctx
        sampleDraws = none)
    ∧ (∀ (allData : List Student) (globalStats : GlobalStats) (ctx : Option UltCtx)
      (draw : TwoWayDraw) (st : DriverState),
      (twoWayStep allData headers globalStats ctx draw st).1.swapsApplied = st.swapsApplied
      ∧ (twoWayStep allData headers globalStats ctx draw st).1.byClass = st.byClass) := by
  have hcs : ∀ (idx1 idx2 : Nat) (cls1Name cls2Name : String) (idxList1 idxList2 : List Nat)
      (allData : List Student) (ctx : Option UltCtx),
      canSwapStudents_Ultimate idx1 idx2 cls1Name cls2Name idxList1 idxList2 allData headers ctx
        = false := by
    intro idx1 idx2 cls1Name cls2Name idxList1 idxList2 allData ctx
    unfold canSwapStudents_Ultimate
    dsimp only
    rw [hmiss]
    simp
  have hnone : ∀ (cls1Name cls2Name : String) (allData : List Student)
      (byClass : List (String × List Nat)) (globalStats : GlobalStats)
      (ctx : Option UltCtx) (sampleDraws : List (Nat × Nat)),
      findBestSwapBetween_Ultimate cls1Name cls2Name allData byClass headers globalStats ctx
        sampleDraws = none := ?_
  case _ =>
    refine ⟨hcs, hnone, ?_⟩
    intro allData globalStats ctx draw st
    constructor <;>
      (unfold twoWayStep
       split
       · rfl
       · split
         · dsimp only
           split <;> rfl
         · rw [hnone]
           dsimp only
           split <;> rfl)
  intro cls1Name cls2Name allData byClass globalStats ctx sampleDraws
  unfold findBestSwapBetween_Ultimate
  dsimp only
  have := foldl_preserve (fun acc : ℚ × Option BestSwap => acc.2 = none)
    (swapSampleStep cls1Name cls2Name ((objGet byClass cls1Name).getD [])
      ((objGet byClass cls2Name).getD []) allData headers globalStats ctx
      (calculateScore_Ultimate ((objGet byClass cls1Name).getD []) allData globalStats cls1Name ctx
        + calculateScore_Ultimate ((objGet byClass cls2Name).getD []) allData globalStats cls2Name
          ctx))
    sampleDraws ((0 : ℚ), none) rfl ?_
  · exact this
  · intro acc d _ hacc
    unfold swapSampleStep
    simp only [hcs, Bool.not_false, if_true]
    split
    · exact hacc
    · split
      · exact hacc
      · exact hacc

/-- Witness for C3 on a concrete header row without a DISSO column. -/
theorem C3_missing_disso_fail_closed_witness :
    canSwapStudents_Ultimate 0 1 "A" "B" [0] [1] [] ["NOM", "SEXE"] none = false
    ∧ findBestSwapBetween_Ultimate "A" "B" [] [("A", [0]), ("B", [1])] ["NOM", "SEXE"]
      ⟨1/2, 5/2, 5/2, 5/2⟩ none [(0, 0)] = none
    ∧ (twoWayStep [] ["NOM", "SEXE"] ⟨1/2, 5/2, 5/2, 5/2⟩ none defaultTwoWayDraw
        ⟨[("A", [0]), ("B", [1])], 0, 0⟩).1.swapsApplied = 0 := by
  have h := C3_missing_disso_fail_closed ["NOM", "SEXE"] (by decide)
  exact ⟨h.1 0 1 "A" "B" [0] [1] [] none,
         h.2.1 "A" "B" [] [("A", [0]), ("B", [1])] ⟨1/2, 5/2, 5/2, 5/2⟩ none [(0, 0)],
         (h.2.2 [] ⟨1/2, 5/2, 5/2, 5/2⟩ none defaultTwoWayDraw
           ⟨[("A", [0]), ("B", [1])], 0, 0⟩).1⟩

/-- C7 (amended).  `findWorstClass_Ultimate` returns no class exactly when the
assignment has no classes at all (because every class score is non-negative
while `maxScore` starts at `-1`, any existing class is selected, even with all
scores equal to 0); and whenever it returns no class the two-way loop
iteration breaks (converged). -/
theorem C7_worst_class_characterization
    (byClass : List (String × List Nat)) (allData : List Student)
    (globalStats : GlobalStats) (ctx : Option UltCtx) :
    (findWorstClass_Ultimate byClass allData globalStats ctx = none ↔ byClass = [])
    ∧ (∀ (headers : List String) (draw : TwoWayDraw) (st : DriverState),
      st.byClass = byClass →
      findWorstClass_Ultimate byClass allData globalStats ctx = none →
      twoWayStep allData headers globalStats ctx draw st = (st, false)) := by
  constructor
  · constructor
    · intro h
      cases byClass with
      | nil => rfl
      | cons e rest =>
        exfalso
        have h1 : (worstStep allData globalStats ctx ((-1 : ℚ), none) e).2 = some e.1 := by
          have h0 := calculateScore_nonneg e.2 allData globalStats e.1 ctx
          have hgt : calculateScore_Ultimate e.2 allData globalStats e.1 ctx >
              (((-1 : ℚ), (none : Option String))).1 := by
            show calculateScore_Ultimate e.2 allData globalStats e.1 ctx > -1
            linarith
          unfold worstStep
          dsimp only
          rw [if_pos hgt]
        have h2 := foldl_preserve (fun acc : ℚ × Option String => acc.2.isSome = true)
          (worstStep allData globalStats ctx) rest
          (worstStep allData globalStats ctx ((-1 : ℚ), none) e)
          (by show (worstStep allData globalStats ctx ((-1 : ℚ), none) e).2.isSome = true
              rw [h1]; rfl)
          (fun acc a _ hacc => by
            show (worstStep allData globalStats ctx acc a).2.isSome = true
            unfold worstStep
            dsimp only
            split
            · rfl
            · exact hacc)
        unfold findWorstClass_Ultimate at h
        rw [List.foldl_cons] at h
        rw [h] at h2
        exact Bool.false_ne_true h2
    · intro h
      subst h
      rfl
  · intro headers draw st hst h
    unfold twoWayStep
    rw [hst, h]

/-- Witness for C7 on the empty assignment and a concrete driver state. -/
theorem C7_worst_class_characterization_witness :
    findWorstClass_Ultimate [] [] ⟨1/2, 5/2, 5/2, 5/2⟩ none = none
    ∧ twoWayStep [] [] ⟨1/2, 5/2, 5/2, 5/2⟩ none defaultTwoWayDraw ⟨[], 0, 0⟩
      = (⟨[], 0, 0⟩, false) := by
  have h := C7_worst_class_characterization [] [] ⟨1/2, 5/2, 5/2, 5/2⟩ none
  exact ⟨h.1.mpr rfl, h.2 [] defaultTwoWayDraw ⟨[], 0, 0⟩ rfl (h.1.mpr rfl)⟩

/-- Counterexample to C7 as stated: a single class whose score is 0 (all class
scores equal 0), for which `findWorstClass_Ultimate` still returns the class
rather than no class. -/
theorem C7_counterexample :
    calculateScore_Ultimate [0, 1]
      [⟨[], "F", 4, 4, 5/2, "", true, false⟩, ⟨[], "F", 4, 4, 5/2, "", true, false⟩]
      ⟨1, 4, 4, 5/2⟩ "A" none = 0
    ∧ findWorstClass_Ultimate [("A", [0, 1])]
      [⟨[], "F", 4, 4, 5/2, "", true, false⟩, ⟨[], "F", 4, 4, 5/2, "", true, false⟩]
      ⟨1, 4, 4, 5/2⟩ none = some "A" := by
  have h0 : calculateScore_Ultimate [0, 1]
      [⟨[], "F", 4, 4, 5/2, "", true, false⟩, ⟨[], "F", 4, 4, 5/2, "", true, false⟩]
      ⟨1, 4, 4, 5/2⟩ "A" none = 0 := by
    simp +decide [calculateScore_Ultimate, ctxTarget, jsOr, ULTIMATE_CONFIG]
  refine ⟨h0, ?_⟩
  unfold findWorstClass_Ultimate
  rw [List.foldl_cons]
  unfold worstStep
  rw [h0]
  norm_num

/-- `objGet` only returns entries of the list. -/
lemma objGet_mem {α : Type} {obj : List (String × α)} {k : String} {v : α}
    (h : objGet obj k = some v) : (k, v) ∈ obj := by
  induction obj with
  | nil => simp [objGet] at h
  | cons e rest ih =>
    unfold objGet at h
    split at h
    · next heq =>
      cases h
      subst heq
      simp
    · exact List.mem_cons_of_mem _ (ih h)

/-- `objGet` finds a value whenever the key occurs. -/
lemma objGet_isSome_of_mem_keys {α : Type} {obj : List (String × α)} {k : String}
    (h : k ∈ obj.map Prod.fst) : (objGet obj k).isSome = true := by
  induction obj with
  | nil => simp at h
  | cons e rest ih =>
    unfold objGet
    split
    · rfl
    · next hne =>
      refine ih ?_
      rw [List.map_cons] at h
      rcases List.mem_cons.mp h with h1 | h1
      · exact absurd h1.symm hne
      · exact h1

/-- An `isSome` lookup is the lookup of its default-stripped value. -/
lemma objGet_eq_some_getD {α : Type} [Inhabited α] {obj : List (String × α)} {k : String}
    (h : (objGet obj k).isSome = true) : objGet obj k = some ((objGet obj k).getD default) := by
  cases hv : objGet obj k with
  | none => rw [hv] at h; cases h
  | some v => rfl

/-- With pairwise-distinct keys, `objGet` inverts membership. -/
lemma objGet_of_mem_nodup {α : Type} {obj : List (String × α)} {k : String} {v : α}
    (hnd : (obj.map Prod.fst).Nodup) (hmem : (k, v) ∈ obj) : objGet obj k = some v := by
  induction obj with
  | nil => cases hmem
  | cons e rest ih =>
    rcases List.mem_cons.mp hmem with h1 | h1
    · unfold objGet
      rw [if_pos (by rw [← h1])]
      rw [← h1]
    · have hnd0 : (e.1 :: rest.map Prod.fst).Nodup := by
        rw [List.map_cons] at hnd; exact hnd
      have hnd' := List.nodup_cons.mp hnd0
      unfold objGet
      split
      · next heq =>
        exfalso
        refine hnd'.1 ?_
        rw [heq]
        exact List.mem_map.mpr ⟨(k, v), h1, rfl⟩
      · exact ih hnd'.2 h1

/-- `updateClass` leaves keys unchanged. -/
lemma updateClass_keys (byClass : List (String × List Nat)) (cls : String)
    (f : List Nat → List Nat) :
    (updateClass byClass cls f).map Prod.fst = byClass.map Prod.fst := by
  unfold updateClass
  rw [List.map_map]
  refine List.map_congr_left (fun e _ => ?_)
  by_cases h : e.1 = cls <;> simp [h]

/-- `updateClass` on an absent key is the identity. -/
lemma updateClass_not_mem (cls : String) (f : List Nat → List Nat) :
    ∀ (l : List (String × List Nat)), cls ∉ l.map Prod.fst → updateClass l cls f = l := by
  intro l
  induction l with
  | nil => intro _; rfl
  | cons e rest ih =>
    intro h
    simp only [List.map_cons, List.mem_cons] at h
    push_neg at h
    unfold updateClass
    simp only [List.map_cons]
    rw [if_neg (fun heq => h.1 heq.symm)]
    have := ih h.2
    unfold updateClass at this
    rw [this]

/-- Lookup after `updateClass`. -/
lemma objGet_updateClass (cls k : String) (f : List Nat → List Nat) :
    ∀ (byClass : List (String × List Nat)),
    objGet (updateClass byClass cls f) k
      = if k = cls then (objGet byClass k).map f else objGet byClass k := by
  intro byClass
  induction byClass with
  | nil =>
    unfold updateClass objGet
    simp only [List.map_nil]
    split <;> rfl
  | cons e rest ih =>
    unfold updateClass at ih ⊢
    simp only [List.map_cons]
    by_cases he : e.1 = cls
    · rw [if_pos he]
      unfold objGet
      by_cases hk : e.1 = k
      · have hkc : k = cls := by rw [← hk, he]
        rw [if_pos hk, if_pos hk, if_pos hkc]
        rfl
      · have hkc : ¬ (k = cls) := fun hh => hk (by rw [he, hh])
        rw [if_neg hk, if_neg hk, if_neg hkc]
        rw [ih, if_neg hkc]
    · rw [if_neg he]
      unfold objGet
      by_cases hk : e.1 = k
      · have hkc : ¬ (k = cls) := fun hh => he (by rw [hk, hh])
        rw [if_pos hk, if_pos hk, if_neg hkc]
      · rw [if_neg hk, if_neg hk, ih]

/-- Effect of one membership assignment on the total score. -/
lemma totalScoreU_updateClass (allData : List Student) (globalStats : GlobalStats)
    (ctx : Option UltCtx) (cls : String) (f : List Nat → List Nat) :
    ∀ (byClass : List (String × List Nat)) (lc : List Nat),
    (byClass.map Prod.fst).Nodup → objGet byClass cls = some lc →
    totalScoreU (updateClass byClass cls f) allData globalStats ctx
      = totalScoreU byClass allData globalStats ctx
        - calculateScore_Ultimate lc allData globalStats cls ctx
        + calculateScore_Ultimate (f lc) allData globalStats cls ctx := by
  intro byClass
  induction byClass with
  | nil => intro lc _ h; simp [objGet] at h
  | cons e rest ih =>
    intro lc hnd hget
    have hnd0 : (e.1 :: rest.map Prod.fst).Nodup := by
      rw [List.map_cons] at hnd; exact hnd
    have hnd' := List.nodup_cons.mp hnd0
    by_cases he : e.1 = cls
    · have hlc : lc = e.2 := by
        unfold objGet at hget
        rw [if_pos he] at hget
        cases hget
        rfl
      have hrest : updateClass rest cls f = rest := by
        refine updateClass_not_mem cls f rest (fun hmem => hnd'.1 ?_)
        rw [he]
        exact hmem
      unfold updateClass totalScoreU
      simp only [List.map_cons, List.sum_cons]
      rw [if_pos he]
      have hrest' : List.map (fun e => if e.1 = cls then (e.1, f e.2) else e) rest = rest := by
        unfold updateClass at hrest
        exact hrest
      rw [hrest']
      subst hlc
      simp only
      rw [he]
      ring
    · have hget' : objGet rest cls = some lc := by
        unfold objGet at hget
        rw [if_neg he] at hget
        exact hget
      have := ih lc hnd'.2 hget'
      unfold updateClass totalScoreU at this ⊢
      simp only [List.map_cons, List.sum_cons]
      rw [if_neg he]
      rw [this]
      ring

/-- A pointwise membership-preserving update preserves class membership. -/
lemma memberOf_updateClass (byClass : List (String × List Nat)) (cls : String)
    (f : List Nat → List Nat) (i : Nat) (hf : ∀ l, i ∈ f l ↔ i ∈ l) (c : String) :
    memberOf (updateClass byClass cls f) c i ↔ memberOf byClass c i := by
  unfold memberOf updateClass
  constructor
  · rintro ⟨l, hl, hil⟩
    rcases List.mem_map.mp hl with ⟨e, he, heq⟩
    by_cases hc : e.1 = cls
    · rw [if_pos hc] at heq
      have h1 : e.1 = c := congrArg Prod.fst heq
      have h2 : f e.2 = l := congrArg Prod.snd heq
      refine ⟨e.2, ?_, (hf e.2).mp (by rw [h2]; exact hil)⟩
      rw [← h1]
      simpa using he
    · rw [if_neg hc] at heq
      exact ⟨l, heq ▸ he, hil⟩
  · rintro ⟨l, hl, hil⟩
    by_cases hc : c = cls
    · refine ⟨f l, ?_, (hf l).mpr hil⟩
      refine List.mem_map.mpr ⟨(c, l), hl, ?_⟩
      rw [if_pos (by simpa using hc)]
    · refine ⟨l, ?_, hil⟩
      refine List.mem_map.mpr ⟨(c, l), hl, ?_⟩
      rw [if_neg (by simpa using hc)]

/-- A position drawn modulo the length lands in the list. -/
lemma getD_mod_mem {α : Type} {l : List α} (hne : l ≠ []) (r : Nat) (d : α) :
    l.getD (r % l.length) d ∈ l := by
  have hlt : r % l.length < l.length :=
    Nat.mod_lt _ (List.length_pos.mpr hne)
  rw [List.getD_eq_getElem _ _ hlt]
  exact List.getElem_mem hlt

/-- Every candidate returned by the two-way search was sampled under the
guards of the search loop: both students are movable, the feasibility oracle
accepted the swap against the two membership lists of the searched classes,
and the recorded gain is exactly the score of the two classes before the swap
minus their score after, and it is positive. -/
lemma findBestSwap_spec (cls1Name cls2Name : String) (allData : List Student)
    (byClass : List (String × List Nat)) (headers : List String)
    (globalStats : GlobalStats) (ctx : Option UltCtx) (sampleDraws : List (Nat × Nat))
    (bs : BestSwap)
    (h : findBestSwapBetween_Ultimate cls1Name cls2Name allData byClass headers globalStats ctx
      sampleDraws = some bs) :
    bs.cls1 = cls1Name ∧ bs.cls2 = cls2Name
    ∧ isFixed (allData.getD bs.idx1 defaultStudent) = false
    ∧ isFixed (allData.getD bs.idx2 defaultStudent) = false
    ∧ canSwapStudents_Ultimate bs.idx1 bs.idx2 cls1Name cls2Name
        ((objGet byClass cls1Name).getD []) ((objGet byClass cls2Name).getD [])
        allData headers ctx = true
    ∧ 0 < bs.gain
    ∧ bs.gain =
        (calculateScore_Ultimate ((objGet byClass cls1Name).getD []) allData globalStats
            cls1Name ctx
          + calculateScore_Ultimate ((objGet byClass cls2Name).getD []) allData globalStats
            cls2Name ctx)
        - (calculateScore_Ultimate
            (((objGet byClass cls1Name).getD []).filter (fun idx => idx != bs.idx1) ++ [bs.idx2])
            allData globalStats cls1Name ctx
          + calculateScore_Ultimate
            (((objGet byClass cls2Name).getD []).filter (fun idx => idx != bs.idx2) ++ [bs.idx1])
            allData globalStats cls2Name ctx) := by
  set l1 := (objGet byClass cls1Name).getD [] with hl1
  set l2 := (objGet byClass cls2Name).getD [] with hl2
  set sb := calculateScore_Ultimate l1 allData globalStats cls1Name ctx
    + calculateScore_Ultimate l2 allData globalStats cls2Name ctx with hsb
  have hfold := foldl_preserve
    (fun acc : ℚ × Option BestSwap => 0 ≤ acc.1 ∧ ∀ b, acc.2 = some b →
      acc.1 = b.gain
      ∧ b.cls1 = cls1Name ∧ b.cls2 = cls2Name
      ∧ isFixed (allData.getD b.idx1 defaultStudent) = false
      ∧ isFixed (allData.getD b.idx2 defaultStudent) = false
      ∧ canSwapStudents_Ultimate b.idx1 b.idx2 cls1Name cls2Name l1 l2 allData headers ctx = true
      ∧ 0 < b.gain
      ∧ b.gain = sb
        - (calculateScore_Ultimate (l1.filter (fun idx => idx != b.idx1) ++ [b.idx2])
            allData globalStats cls1Name ctx
          + calculateScore_Ultimate (l2.filter (fun idx => idx != b.idx2) ++ [b.idx1])
            allData globalStats cls2Name ctx))
    (swapSampleStep cls1Name cls2Name l1 l2 allData headers globalStats ctx sb)
    sampleDraws ((0 : ℚ), none)
    ⟨le_refl 0, fun b hb => by cases hb⟩
    ?_
  · unfold findBestSwapBetween_Ultimate at h
    dsimp only at h
    rw [← hl1, ← hl2, ← hsb] at h
    obtain ⟨-, hQ⟩ := hfold
    obtain ⟨-, h1, h2, h3, h4, h5, h6, h7⟩ := hQ bs h
    exact ⟨h1, h2, h3, h4, h5, h6, h7⟩
  · intro acc d _ hacc
    unfold swapSampleStep
    dsimp only
    split
    · exact hacc
    · split
      · exact hacc
      · split
        · exact hacc
        · next hcan =>
          split
          · next hgt =>
            refine ⟨le_of_lt (lt_of_le_of_lt hacc.1 hgt), fun b hb => ?_⟩
            cases hb
            next hf1 hf2 =>
              refine ⟨rfl, rfl, rfl, ?_, ?_, ?_, ?_, rfl⟩
              · exact Bool.eq_false_iff.mpr hf1
              · exact Bool.eq_false_iff.mpr hf2
              · simpa using hcan
              · exact lt_of_le_of_lt hacc.1 hgt
          · exact hacc

/-- Every rotation selected by the three-way sampling pass satisfies
`Rot3Selected` at its recorded gain. -/
lemma find3Way_spec (byClass : List (String × List Nat)) (allData : List Student)
    (globalStats : GlobalStats) (ctx : Option UltCtx) (headers : List String)
    (draws : List ((Nat × Nat × Nat) × List (Nat × Nat × Nat))) (g : ℚ) (rot : Rot3)
    (h : find3Way_Ultimate byClass allData globalStats ctx headers draws = (g, some rot)) :
    Rot3Selected byClass allData globalStats ctx headers g rot := by
  have hfold := foldl_preserve
    (fun acc : ℚ × Option Rot3 => 1/1000 ≤ acc.1 ∧ ∀ r, acc.2 = some r →
      Rot3Selected byClass allData globalStats ctx headers acc.1 r)
    (rot3TripleStep byClass allData globalStats ctx headers)
    draws ((1/1000 : ℚ), none)
    ⟨le_refl _, fun r hr => by cases hr⟩
    ?_
  · unfold find3Way_Ultimate at h
    rw [h] at hfold
    exact hfold.2 rot rfl
  · intro acc tDraw _ hacc
    unfold rot3TripleStep
    dsimp only
    split
    · exact hacc
    · next hguard1 =>
      split
      · exact hacc
      · next hguard2 =>
        have hne12 : (byClass.map Prod.fst).getD
            (tDraw.1.1 % (byClass.map Prod.fst).length) ""
            ≠ (byClass.map Prod.fst).getD (tDraw.1.2.1 % (byClass.map Prod.fst).length) "" := by
          intro hh
          exact hguard1 (by rw [hh]; simp)
        have hne23 : (byClass.map Prod.fst).getD
            (tDraw.1.2.1 % (byClass.map Prod.fst).length) ""
            ≠ (byClass.map Prod.fst).getD (tDraw.1.2.2 % (byClass.map Prod.fst).length) "" := by
          intro hh
          exact hguard1 (by rw [hh]; simp)
        have hne13 : (byClass.map Prod.fst).getD
            (tDraw.1.1 % (byClass.map Prod.fst).length) ""
            ≠ (byClass.map Prod.fst).getD (tDraw.1.2.2 % (byClass.map Prod.fst).length) "" := by
          intro hh
          exact hguard1 (by rw [hh]; simp)
        have hkeys : byClass.map Prod.fst ≠ [] := by
          intro hh
          refine hne12 ?_
          rw [hh]
          rfl
        have hm1 := objGet_isSome_of_mem_keys (getD_mod_mem hkeys (tDraw.1.1) "")
        have hm2 := objGet_isSome_of_mem_keys (getD_mod_mem hkeys (tDraw.1.2.1) "")
        have hm3 := objGet_isSome_of_mem_keys (getD_mod_mem hkeys (tDraw.1.2.2) "")
        refine foldl_preserve
          (fun acc : ℚ × Option Rot3 => 1/1000 ≤ acc.1 ∧ ∀ r, acc.2 = some r →
            Rot3Selected byClass allData globalStats ctx headers acc.1 r)
          _ tDraw.2 acc hacc ?_
        intro acc2 sDraw _ hacc2
        unfold rot3StudentStep
        dsimp only
        split
        · exact hacc2
        · next hfix =>
          split
          · exact hacc2
          · next hcan1 =>
            split
            · exact hacc2
            · next hcan2 =>
              split
              · next hgt =>
                refine ⟨le_of_lt (lt_of_le_of_lt hacc2.1 hgt), fun r hr => ?_⟩
                cases hr
                refine ⟨hne12, hne23, hne13, hm1, hm2, hm3, ?_, ?_, ?_,
                  by simpa using hcan1, by simpa using hcan2,
                  lt_of_le_of_lt hacc2.1 hgt, rfl⟩
                · exact Bool.eq_false_iff.mpr (fun hh => hfix (by rw [hh]; simp))
                · exact Bool.eq_false_iff.mpr (fun hh => hfix (by rw [hh]; simp))
                · exact Bool.eq_false_iff.mpr (fun hh => hfix (by rw [hh]; simp))
              · exact hacc2

/-- C4.  The total score is strictly decreasing at every applied move.  For an
applied two-way swap (selected by the search between two distinct classes and
accepted with gain above `1e-4`), the recorded gain is the score of the two
touched classes before minus after, every other class keeps its membership
list, and the sum of all class scores drops by exactly that gain, hence
strictly.  For an applied three-way rotation (selected with gain above
`0.001`), the same holds over its three touched classes. -/
theorem C4_total_score_strictly_decreases
    (byClass : List (String × List Nat)) (allData : List Student)
    (globalStats : GlobalStats) (ctx : Option UltCtx) (headers : List String)
    (hnd : (byClass.map Prod.fst).Nodup) :
    (∀ (cls1Name cls2Name : String) (sampleDraws : List (Nat × Nat)) (bs : BestSwap),
      cls1Name ≠ cls2Name →
      (objGet byClass cls1Name).isSome = true →
      (objGet byClass cls2Name).isSome = true →
      findBestSwapBetween_Ultimate cls1Name cls2Name allData byClass headers globalStats ctx
        sampleDraws = some bs →
      bs.gain > 1/10000 →
      (∀ c, c ≠ cls1Name → c ≠ cls2Name →
        objGet (applySwap_Ultimate byClass bs) c = objGet byClass c)
      ∧ totalScoreU (applySwap_Ultimate byClass bs) allData globalStats ctx
          = totalScoreU byClass allData globalStats ctx - bs.gain
      ∧ totalScoreU (applySwap_Ultimate byClass bs) allData globalStats ctx
          < totalScoreU byClass allData globalStats ctx)
    ∧ (∀ (draws : List ((Nat × Nat × Nat) × List (Nat × Nat × Nat))) (g : ℚ) (rot : Rot3),
      find3Way_Ultimate byClass allData globalStats ctx headers draws = (g, some rot) →
      (∀ c, c ≠ rot.c1 → c ≠ rot.c2 → c ≠ rot.c3 →
        objGet (applyRot3 byClass rot) c = objGet byClass c)
      ∧ totalScoreU (applyRot3 byClass rot) allData globalStats ctx
          = totalScoreU byClass allData globalStats ctx - g
      ∧ totalScoreU (applyRot3 byClass rot) allData globalStats ctx
          < totalScoreU byClass allData globalStats ctx) := by
  constructor
  · intro cls1Name cls2Name sampleDraws bs hne hs1 hs2 hfind hgain
    obtain ⟨hc1, hc2, -, -, -, -, hgeq⟩ :=
      findBestSwap_spec cls1Name cls2Name allData byClass headers globalStats ctx
        sampleDraws bs hfind
    have hget1 : objGet byClass cls1Name = some ((objGet byClass cls1Name).getD []) :=
      objGet_eq_some_getD hs1
    have hget2 : objGet byClass cls2Name = some ((objGet byClass cls2Name).getD []) :=
      objGet_eq_some_getD hs2
    have happ : applySwap_Ultimate byClass bs
        = updateClass (updateClass byClass cls1Name
            (fun l => l.filter (fun i => i != bs.idx1) ++ [bs.idx2])) cls2Name
            (fun l => l.filter (fun i => i != bs.idx2) ++ [bs.idx1]) := by
      unfold applySwap_Ultimate
      rw [hc1, hc2]
    have hkeys1 : ((updateClass byClass cls1Name
        (fun l => l.filter (fun i => i != bs.idx1) ++ [bs.idx2])).map Prod.fst).Nodup := by
      rw [updateClass_keys]
      exact hnd
    have hget2' : objGet (updateClass byClass cls1Name
        (fun l => l.filter (fun i => i != bs.idx1) ++ [bs.idx2])) cls2Name
        = some ((objGet byClass cls2Name).getD []) := by
      rw [objGet_updateClass, if_neg (fun hh => hne hh.symm)]
      exact hget2
    have ht1 := totalScoreU_updateClass allData globalStats ctx cls1Name
      (fun l => l.filter (fun i => i != bs.idx1) ++ [bs.idx2]) byClass
      ((objGet byClass cls1Name).getD []) hnd hget1
    have ht2 := totalScoreU_updateClass allData globalStats ctx cls2Name
      (fun l => l.filter (fun i => i != bs.idx2) ++ [bs.idx1])
      (updateClass byClass cls1Name (fun l => l.filter (fun i => i != bs.idx1) ++ [bs.idx2]))
      ((objGet byClass cls2Name).getD []) hkeys1 hget2'
    refine ⟨?_, ?_, ?_⟩
    · intro c hcc1 hcc2
      rw [happ, objGet_updateClass, if_neg hcc2, objGet_updateClass, if_neg hcc1]
    · rw [happ, ht2, ht1, hgeq]
      ring
    · rw [happ, ht2, ht1]
      linarith [hgain, hgeq]
  · intro draws g rot hfind
    obtain ⟨hd12, hd23, hd13, hs1, hs2, hs3, -, -, -, -, -, hgt, hgeq⟩ :=
      find3Way_spec byClass allData globalStats ctx headers draws g rot hfind
    have hget1 : objGet byClass rot.c1 = some ((objGet byClass rot.c1).getD []) :=
      objGet_eq_some_getD hs1
    have hget2 : objGet byClass rot.c2 = some ((objGet byClass rot.c2).getD []) :=
      objGet_eq_some_getD hs2
    have hget3 : objGet byClass rot.c3 = some ((objGet byClass rot.c3).getD []) :=
      objGet_eq_some_getD hs3
    have happ : applyRot3 byClass rot
        = updateClass (updateClass (updateClass byClass rot.c1
            (fun l => l.filter (fun x => x != rot.a) ++ [rot.c])) rot.c2
            (fun l => l.filter (fun x => x != rot.b) ++ [rot.a])) rot.c3
            (fun l => l.filter (fun x => x != rot.c) ++ [rot.b]) := rfl
    have hkeys1 : ((updateClass byClass rot.c1
        (fun l => l.filter (fun x => x != rot.a) ++ [rot.c])).map Prod.fst).Nodup := by
      rw [updateClass_keys]; exact hnd
    have hkeys2 : ((updateClass (updateClass byClass rot.c1
        (fun l => l.filter (fun x => x != rot.a) ++ [rot.c])) rot.c2
        (fun l => l.filter (fun x => x != rot.b) ++ [rot.a])).map Prod.fst).Nodup := by
      rw [updateClass_keys, updateClass_keys]; exact hnd
    have hget2' : objGet (updateClass byClass rot.c1
        (fun l => l.filter (fun x => x != rot.a) ++ [rot.c])) rot.c2
        = some ((objGet byClass rot.c2).getD []) := by
      rw [objGet_updateClass, if_neg (fun hh => hd12 hh.symm)]
      exact hget2
    have hget3' : objGet (updateClass (updateClass byClass rot.c1
        (fun l => l.filter (fun x => x != rot.a) ++ [rot.c])) rot.c2
        (fun l => l.filter (fun x => x != rot.b) ++ [rot.a])) rot.c3
        = some ((objGet byClass rot.c3).getD []) := by
      rw [objGet_updateClass, if_neg (fun hh => hd23 hh.symm),
        objGet_updateClass, if_neg (fun hh => hd13 hh.symm)]
      exact hget3
    have ht1 := totalScoreU_updateClass allData globalStats ctx rot.c1
      (fun l => l.filter (fun x => x != rot.a) ++ [rot.c]) byClass
      ((objGet byClass rot.c1).getD []) hnd hget1
    have ht2 := totalScoreU_updateClass allData globalStats ctx rot.c2
      (fun l => l.filter (fun x => x != rot.b) ++ [rot.a])
      (updateClass byClass rot.c1 (fun l => l.filter (fun x => x != rot.a) ++ [rot.c]))
      ((objGet byClass rot.c2).getD []) hkeys1 hget2'
    have ht3 := totalScoreU_updateClass allData globalStats ctx rot.c3
      (fun l => l.filter (fun x => x != rot.c) ++ [rot.b])
      (updateClass (updateClass byClass rot.c1
        (fun l => l.filter (fun x => x != rot.a) ++ [rot.c])) rot.c2
        (fun l => l.filter (fun x => x != rot.b) ++ [rot.a]))
      ((objGet byClass rot.c3).getD []) hkeys2 hget3'
    refine ⟨?_, ?_, ?_⟩
    · intro c hcc1 hcc2 hcc3
      rw [happ, objGet_updateClass, if_neg hcc3, objGet_updateClass, if_neg hcc2,
        objGet_updateClass, if_neg hcc1]
    · rw [happ, ht3, ht2, ht1, hgeq]
      ring
    · rw [happ, ht3, ht2, ht1]
      linarith [hgt, hgeq]

/-- Score of each demo class before the swap. -/
lemma demo_score_A : calculateScore_Ultimate [0, 1] demoData demoStats "A" none = 4000 := by
  simp +decide [calculateScore_Ultimate, ctxTarget, jsOr, ULTIMATE_CONFIG, demoData,
    demoStudent, demoStats]
  norm_num [abs_of_nonneg]

/-- Score of demo class B before the swap. -/
lemma demo_score_B : calculateScore_Ultimate [2, 3] demoData demoStats "B" none = 4000 := by
  simp +decide [calculateScore_Ultimate, ctxTarget, jsOr, ULTIMATE_CONFIG, demoData,
    demoStudent, demoStats]
  norm_num [abs_of_nonneg]

/-- Score of demo class A after swapping student 0 out and 2 in. -/
lemma demo_score_A' : calculateScore_Ultimate [1, 2] demoData demoStats "A" none = 2000 := by
  simp +decide [calculateScore_Ultimate, ctxTarget, jsOr, ULTIMATE_CONFIG, demoData,
    demoStudent, demoStats]
  norm_num [abs_of_nonneg]

/-- Score of demo class B after swapping student 2 out and 0 in. -/
lemma demo_score_B' : calculateScore_Ultimate [3, 0] demoData demoStats "B" none = 2000 := by
  simp +decide [calculateScore_Ultimate, ctxTarget, jsOr, ULTIMATE_CONFIG, demoData,
    demoStudent, demoStats]
  norm_num [abs_of_nonneg]

/-- The demo search over a single sampled pair selects the parity-fixing swap
with gain 4000. -/
lemma demo_findBestSwap :
    findBestSwapBetween_Ultimate "A" "B" demoData demoByClass demoHeaders demoStats none
      [(0, 0)]
      = some ⟨0, 2, "A", "B", 4000, "Swap Std/Std"⟩ := by
  unfold findBestSwapBetween_Ultimate
  have hl1 : (objGet demoByClass "A").getD [] = [0, 1] := by decide
  have hl2 : (objGet demoByClass "B").getD [] = [2, 3] := by decide
  rw [hl1, hl2]
  dsimp only
  rw [demo_score_A, demo_score_B]
  rw [List.foldl_cons, List.foldl_nil]
  unfold swapSampleStep
  dsimp only
  have hfix0 : isFixed (demoData.getD ([0, 1].getD (0 % [0, 1].length) 0) defaultStudent)
      = false := by decide
  have hfix2 : isFixed (demoData.getD ([2, 3].getD (0 % [2, 3].length) 0) defaultStudent)
      = false := by decide
  rw [hfix0]
  simp only [Bool.false_eq_true, if_false]
  rw [hfix2]
  simp only [Bool.false_eq_true, if_false]
  have hcan : canSwapStudents_Ultimate ([0, 1].getD (0 % [0, 1].length) 0)
      ([2, 3].getD (0 % [2, 3].length) 0) "A" "B" [0, 1] [2, 3] demoData demoHeaders none
      = true := by decide
  rw [hcan]
  simp only [Bool.not_true, Bool.false_eq_true, if_false]
  have htemp1 : ([0, 1].filter (fun idx => idx != [0, 1].getD (0 % [0, 1].length) 0)
      ++ [[2, 3].getD (0 % [2, 3].length) 0]) = [1, 2] := by decide
  have htemp2 : ([2, 3].filter (fun idx => idx != [2, 3].getD (0 % [2, 3].length) 0)
      ++ [[0, 1].getD (0 % [0, 1].length) 0]) = [3, 0] := by decide
  rw [htemp1, htemp2, demo_score_A', demo_score_B']
  norm_num
  decide

/-- Witness for C4: applying the selected demo swap drops the total score from
8000 to 4000, exactly by the recorded gain, and leaves every other class
untouched. -/
theorem C4_total_score_strictly_decreases_witness :
    (∀ c, c ≠ "A" → c ≠ "B" →
      objGet (applySwap_Ultimate demoByClass ⟨0, 2, "A", "B", 4000, "Swap Std/Std"⟩) c
        = objGet demoByClass c)
    ∧ totalScoreU (applySwap_Ultimate demoByClass ⟨0, 2, "A", "B", 4000, "Swap Std/Std"⟩)
        demoData demoStats none
      = totalScoreU demoByClass demoData demoStats none
        - (⟨0, 2, "A", "B", 4000, "Swap Std/Std"⟩ : BestSwap).gain
    ∧ totalScoreU (applySwap_Ultimate demoByClass ⟨0, 2, "A", "B", 4000, "Swap Std/Std"⟩)
        demoData demoStats none
      < totalScoreU demoByClass demoData demoStats none :=
  (C4_total_score_strictly_decreases demoByClass demoData demoStats none demoHeaders
    (by decide)).1 "A" "B" [(0, 0)] ⟨0, 2, "A", "B", 4000, "Swap Std/Std"⟩
    (by decide) (by decide) (by decide) demo_findBestSwap (by norm_num)

/-- Membership in a post-swap membership list is unchanged for a student who
is neither the one leaving nor the one entering. -/
lemma mem_swap_list_iff {i x y : Nat} (hx : i ≠ x) (hy : i ≠ y) (l : List Nat) :
    (i ∈ l.filter (fun t => t != x) ++ [y]) ↔ i ∈ l := by
  rw [List.mem_append]
  constructor
  · rintro (hs | hs)
    · exact (List.mem_filter.mp hs).1
    · exact absurd (List.mem_singleton.mp hs) hy
  · intro hl
    exact Or.inl (List.mem_filter.mpr ⟨hl, by simp [hx]⟩)

/-- Two booleans cannot be both `true` and `false`. -/
lemma ne_of_isFixed_ne {allData : List Student} {i j : Nat}
    (hi : isFixed (allData.getD i defaultStudent) = true)
    (hj : isFixed (allData.getD j defaultStudent) = false) : i ≠ j := by
  intro hh
  rw [hh, hj] at hi
  cases hi

/-- C6.  No fixed student changes class: every candidate selected by the
two-way search and every rotation selected by the three-way pass involve only
students whose `isFixed` flag is `false`, and applying such a move preserves
the class membership of every fixed student. -/
theorem C6_fixed_students_never_move :
    (∀ (cls1Name cls2Name : String) (allData : List Student)
      (byClass : List (String × List Nat)) (headers : List String)
      (globalStats : GlobalStats) (ctx : Option UltCtx)
      (sampleDraws : List (Nat × Nat)) (bs : BestSwap),
      findBestSwapBetween_Ultimate cls1Name cls2Name allData byClass headers globalStats ctx
        sampleDraws = some bs →
      isFixed (allData.getD bs.idx1 defaultStudent) = false
      ∧ isFixed (allData.getD bs.idx2 defaultStudent) = false)
    ∧ (∀ (byClass : List (String × List Nat)) (allData : List Student)
      (globalStats : GlobalStats) (ctx : Option UltCtx) (headers : List String)
      (draws : List ((Nat × Nat × Nat) × List (Nat × Nat × Nat))) (g : ℚ) (rot : Rot3),
      find3Way_Ultimate byClass allData globalStats ctx headers draws = (g, some rot) →
      isFixed (allData.getD rot.a defaultStudent) = false
      ∧ isFixed (allData.getD rot.b defaultStudent) = false
      ∧ isFixed (allData.getD rot.c defaultStudent) = false)
    ∧ (∀ (cls1Name cls2Name : String) (allData : List Student)
      (byClass : List (String × List Nat)) (headers : List String)
      (globalStats : GlobalStats) (ctx : Option UltCtx)
      (sampleDraws : List (Nat × Nat)) (bs : BestSwap) (i : Nat) (c : String),
      findBestSwapBetween_Ultimate cls1Name cls2Name allData byClass headers globalStats ctx
        sampleDraws = some bs →
      isFixed (allData.getD i defaultStudent) = true →
      (memberOf (applySwap_Ultimate byClass bs) c i ↔ memberOf byClass c i))
    ∧ (∀ (byClass : List (String × List Nat)) (allData : List Student)
      (globalStats : GlobalStats) (ctx : Option UltCtx) (headers : List String)
      (draws : List ((Nat × Nat × Nat) × List (Nat × Nat × Nat))) (g : ℚ) (rot : Rot3)
      (i : Nat) (c : String),
      find3Way_Ultimate byClass allData globalStats ctx headers draws = (g, some rot) →
      isFixed (allData.getD i defaultStudent) = true →
      (memberOf (applyRot3 byClass rot) c i ↔ memberOf byClass c i)) := by
  refine ⟨?_, ?_, ?_, ?_⟩
  · intro cls1Name cls2Name allData byClass headers globalStats ctx sampleDraws bs h
    obtain ⟨-, -, hf1, hf2, -⟩ :=
      findBestSwap_spec cls1Name cls2Name allData byClass headers globalStats ctx
        sampleDraws bs h
    exact ⟨hf1, hf2⟩
  · intro byClass allData globalStats ctx headers draws g rot h
    obtain ⟨-, -, -, -, -, -, hfa, hfb, hfc, -⟩ :=
      find3Way_spec byClass allData globalStats ctx headers draws g rot h
    exact ⟨hfa, hfb, hfc⟩
  · intro cls1Name cls2Name allData byClass headers globalStats ctx sampleDraws bs i c h hfix
    obtain ⟨-, -, hf1, hf2, -⟩ :=
      findBestSwap_spec cls1Name cls2Name allData byClass headers globalStats ctx
        sampleDraws bs h
    have hne1 := ne_of_isFixed_ne hfix hf1
    have hne2 := ne_of_isFixed_ne hfix hf2
    show memberOf (updateClass (updateClass byClass bs.cls1
      (fun l => l.filter (fun t => t != bs.idx1) ++ [bs.idx2])) bs.cls2
      (fun l => l.filter (fun t => t != bs.idx2) ++ [bs.idx1])) c i ↔ memberOf byClass c i
    exact Iff.trans
      (memberOf_updateClass _ bs.cls2 _ i (fun l => mem_swap_list_iff hne2 hne1 l) c)
      (memberOf_updateClass _ bs.cls1 _ i (fun l => mem_swap_list_iff hne1 hne2 l) c)
  · intro byClass allData globalStats ctx headers draws g rot i c h hfix
    obtain ⟨-, -, -, -, -, -, hfa, hfb, hfc, -⟩ :=
      find3Way_spec byClass allData globalStats ctx headers draws g rot h
    have hnea := ne_of_isFixed_ne hfix hfa
    have hneb := ne_of_isFixed_ne hfix hfb
    have hnec := ne_of_isFixed_ne hfix hfc
    show memberOf (updateClass (updateClass (updateClass byClass rot.c1
      (fun l => l.filter (fun t => t != rot.a) ++ [rot.c])) rot.c2
      (fun l => l.filter (fun t => t != rot.b) ++ [rot.a])) rot.c3
      (fun l => l.filter (fun t => t != rot.c) ++ [rot.b])) c i ↔ memberOf byClass c i
    exact Iff.trans
      (memberOf_updateClass _ rot.c3 _ i (fun l => mem_swap_list_iff hnec hneb l) c)
      (Iff.trans
        (memberOf_updateClass _ rot.c2 _ i (fun l => mem_swap_list_iff hneb hnea l) c)
        (memberOf_updateClass _ rot.c1 _ i (fun l => mem_swap_list_iff hnea hnec l) c))

/-- Witness for C6: the students of the selected demo swap are movable, and a
fixed bystander keeps its class membership across the application. -/
theorem C6_fixed_students_never_move_witness :
    (isFixed (demoData.getD (0 : Nat) defaultStudent) = false
      ∧ isFixed (demoData.getD (2 : Nat) defaultStudent) = false)
    ∧ (memberOf (applySwap_Ultimate demoByClass ⟨0, 2, "A", "B", 4000, "Swap Std/Std"⟩) "C" 4
        ↔ memberOf demoByClass "C" 4) := by
  constructor
  · exact C6_fixed_students_never_move.1 "A" "B" demoData demoByClass demoHeaders demoStats
      none [(0, 0)] ⟨0, 2, "A", "B", 4000, "Swap Std/Std"⟩ demo_findBestSwap
  · exact C6_fixed_students_never_move.2.2.1 "A" "B" demoData demoByClass demoHeaders
      demoStats none [(0, 0)] ⟨0, 2, "A", "B", 4000, "Swap Std/Std"⟩ 4 "C"
      demo_findBestSwap (by decide)

/-- The complementarity scan only proposes classes from the iterated candidate
list, which excludes the worst class. -/
lemma partnerFold_mem (byClass : List (String × List Nat)) (allData : List Student)
    (globalStats : GlobalStats) (worstClass : String) (wT wN : Nat) (wR wC : ℚ) :
    ∀ (l : List String) (acc : Option (ℚ × String)),
    (∀ a ∈ l, a ∈ (byClass.map Prod.fst).filter (fun c => c != worstClass)) →
    (∀ v, acc = some v → v.2 ≠ worstClass) →
    ∀ v, l.foldl (partnerStep byClass allData globalStats wT wN wR wC) acc = some v →
      v.2 ≠ worstClass := by
  intro l
  induction l with
  | nil => intro acc _ hacc v hv; exact hacc v hv
  | cons x xs ih =>
    intro acc hsub hacc v hv
    refine ih _ (fun a ha => hsub a (List.mem_cons_of_mem x ha)) ?_ v hv
    intro w hw2
    have hxmem := (List.mem_filter.mp (hsub x (List.mem_cons_self x xs))).2
    have hxne : x ≠ worstClass := by
      intro hh
      rw [hh] at hxmem
      simp at hxmem
    unfold partnerStep at hw2
    dsimp only at hw2
    split at hw2
    · exact hacc w hw2
    · cases acc with
      | none =>
        dsimp only at hw2
        have hh := Option.some.inj hw2
        rw [← hh]
        exact hxne
      | some b =>
        dsimp only at hw2
        rcases ite_eq_iff.mp hw2 with ⟨-, hw3⟩ | ⟨-, hw3⟩
        · have hh := Option.some.inj hw3
          rw [← hh]
          exact hxne
        · exact hacc w hw3

/-- An `ite` of two `some`s is always `some`. -/
lemma isSome_ite_some {α : Type} (c : Prop) [inst : Decidable c] (a b : α) :
    (if c then some a else some b).isSome = true := by
  split <;> rfl

/-- The complementarity scan selects some class as soon as the candidate list
contains a non-empty class. -/
lemma partnerFold_isSome (byClass : List (String × List Nat)) (allData : List Student)
    (globalStats : GlobalStats) (wT wN : Nat) (wR wC : ℚ)
    (cls : String) (lc : List Nat) (hget : objGet byClass cls = some lc) (hlcne : lc ≠ []) :
    ∀ (l : List String) (acc : Option (ℚ × String)), cls ∈ l →
    (l.foldl (partnerStep byClass allData globalStats wT wN wR wC) acc).isSome = true := by
  have hstep : ∀ (acc2 : Option (ℚ × String)) (y : String),
      (partnerStep byClass allData globalStats wT wN wR wC acc2 y).isSome = true
      ∨ (partnerStep byClass allData globalStats wT wN wR wC acc2 y) = acc2 := by
    intro acc2 y
    unfold partnerStep
    dsimp only
    split
    · exact Or.inr rfl
    · cases acc2 with
      | none => exact Or.inl rfl
      | some b => exact Or.inl (isSome_ite_some _ _ _)
  intro l
  induction l with
  | nil => intro acc h; cases h
  | cons x xs ih =>
    intro acc hmem
    rw [List.foldl_cons]
    rcases List.mem_cons.mp hmem with h1 | h1
    · subst h1
      have hx : (partnerStep byClass allData globalStats wT wN wR wC acc cls).isSome
          = true := by
        unfold partnerStep
        dsimp only
        rw [hget]
        have hlen : ¬ (((lc : List Nat).map (fun i => allData.getD i defaultStudent)).length
            = 0) := by
          simp only [List.length_map]
          exact fun hh => hlcne (List.eq_nil_of_length_eq_zero hh)
        rw [if_neg (by simpa using hlen)]
        cases acc with
        | none => rfl
        | some b => exact isSome_ite_some _ _ _
      refine foldl_preserve (fun acc2 : Option (ℚ × String) => acc2.isSome = true)
        _ xs _ hx ?_
      intro acc2 y _ hacc2
      rcases hstep acc2 y with h2 | h2
      · exact h2
      · rw [h2]; exact hacc2
    · exact ih _ h1

/-- C8 (amended).  Partner selection succeeds whenever, besides the worst
class, some other non-empty class exists and the worst class itself is
non-empty: it then returns a class different from the worst one (in both the
exploration branch and the complementarity scan).  It can return no partner
not only with a single class but also when the worst class is empty, which the
counterexample exhibits. -/
theorem C8_partner_class_characterization
    (worstClass : String) (byClass : List (String × List Nat)) (allData : List Student)
    (globalStats : GlobalStats) (explore : Bool) (pick : Nat)
    (hnd : (byClass.map Prod.fst).Nodup)
    (lw : List Nat) (hw : objGet byClass worstClass = some lw) (hwne : lw ≠ [])
    (cls : String) (lc : List Nat) (hc : (cls, lc) ∈ byClass) (hcne : cls ≠ worstClass)
    (hlcne : lc ≠ []) :
    ∃ p, findPartnerClass_Ultimate worstClass byClass allData globalStats explore pick = some p
      ∧ p ≠ worstClass := by
  have hclskeys : cls ∈ byClass.map Prod.fst := List.mem_map.mpr ⟨(cls, lc), hc, rfl⟩
  have hclsmem : cls ∈ (byClass.map Prod.fst).filter (fun c => c != worstClass) :=
    List.mem_filter.mpr ⟨hclskeys, by simp [hcne]⟩
  have hclasses : (byClass.map Prod.fst).filter (fun c => c != worstClass) ≠ [] :=
    List.ne_nil_of_mem hclsmem
  have hlen : ¬ ((byClass.map Prod.fst).filter (fun c => c != worstClass)).length = 0 :=
    fun hh => hclasses (List.eq_nil_of_length_eq_zero hh)
  have hwlen : ¬ (((objGet byClass worstClass).getD []).map
      (fun i => allData.getD i defaultStudent)).length = 0 := by
    rw [hw]
    simp only [Option.getD_some, List.length_map]
    exact fun hh => hwne (List.eq_nil_of_length_eq_zero hh)
  have hgetcls : objGet byClass cls = some lc := objGet_of_mem_nodup hnd hc
  unfold findPartnerClass_Ultimate
  rw [if_neg hlen, if_neg hwlen]
  dsimp only
  by_cases hex : explore = true
  · rw [hex]
    simp only [if_true]
    refine ⟨_, rfl, ?_⟩
    have hmem := getD_mod_mem hclasses pick ""
    have hp := (List.mem_filter.mp hmem).2
    intro hh
    rw [hh] at hp
    simp at hp
  · rw [Bool.eq_false_iff.mpr hex]
    simp only [Bool.false_eq_true, if_false]
    obtain ⟨best, hbest⟩ := Option.isSome_iff_exists.mp
      (partnerFold_isSome byClass allData globalStats _ _ _ _ cls lc hgetcls hlcne
        ((byClass.map Prod.fst).filter (fun c => c != worstClass)) none hclsmem)
    rw [hbest]
    exact ⟨best.2, rfl,
      partnerFold_mem byClass allData globalStats worstClass _ _ _ _
        ((byClass.map Prod.fst).filter (fun c => c != worstClass)) none
        (fun a ha => ha) (fun v hv => by cases hv) best hbest⟩

/-- Witness for C8 at a concrete two-class state with a movable student in
each class. -/
theorem C8_partner_class_characterization_witness :
    ∃ p, findPartnerClass_Ultimate "A" [("A", [0]), ("B", [1])] demoData demoStats false 0
      = some p ∧ p ≠ "A" :=
  C8_partner_class_characterization "A" [("A", [0]), ("B", [1])] demoData demoStats false 0
    (by decide) [0] (by decide) (by decide) "B" [1] (by decide) (by decide) (by decide)

/-- Counterexample to C8 as stated: a state with two classes whose worst class
is empty, for which partner selection returns no partner. -/
theorem C8_counterexample :
    ([("A", ([] : List Nat)), ("B", [0])].map Prod.fst).length = 2
    ∧ findPartnerClass_Ultimate "A" [("A", []), ("B", [0])] [demoStudent "M"]
        ⟨1/2, 5/2, 5/2, 5/2⟩ false 0 = none := by
  constructor
  · rfl
  · rfl

/-- Replacing `x` by `y` in a membership list preserves the antinomy
invariant, provided `y` carries no non-empty code already carried by another
member (the member `x` being swapped out does not count) — exactly what the
oracle's DISSO scan checks. -/
lemma noDissoDup_swap (allData : List Student) (idxD : Int) (l : List Nat) (x y : Nat)
    (hdup : noDissoDup allData idxD l)
    (hy : dissoOfIdx allData idxD y ≠ "" →
      ∀ i ∈ l, i ≠ x → dissoOfIdx allData idxD i ≠ dissoOfIdx allData idxD y) :
    noDissoDup allData idxD (l.filter (fun t => t != x) ++ [y]) := by
  unfold noDissoDup at hdup ⊢
  rw [List.map_append, List.filter_append]
  have hsub : (((l.filter (fun t => t != x)).map (dissoOfIdx allData idxD)).filter
        (fun code => code != "")).Sublist
      ((l.map (dissoOfIdx allData idxD)).filter (fun code => code != "")) :=
    List.Sublist.filter _ (List.Sublist.map _ (List.filter_sublist l))
  have hA := hsub.nodup hdup
  by_cases hdy : dissoOfIdx allData idxD y = ""
  · have hB : (([y].map (dissoOfIdx allData idxD)).filter (fun code => code != "")) = [] := by
      simp [hdy]
    rw [hB, List.append_nil]
    exact hA
  · have hB : (([y].map (dissoOfIdx allData idxD)).filter (fun code => code != ""))
        = [dissoOfIdx allData idxD y] := by
      simp [hdy]
    rw [hB]
    rw [List.nodup_append]
    refine ⟨hA, List.nodup_singleton _, ?_⟩
    intro code hcode hcodey
    rw [List.mem_singleton.mp hcodey] at hcode
    have hmem := List.mem_filter.mp hcode
    rcases List.mem_map.mp hmem.1 with ⟨i, hi, hieq⟩
    have hifil := List.mem_filter.mp hi
    have hine : i ≠ x := by
      intro hh
      have := hifil.2
      rw [hh] at this
      simp at this
    exact hy hdy i hifil.1 hine hieq

/-- The two DISSO scans of a positive oracle answer: the code of each swapped
student conflicts with no other member of its destination class. -/
lemma canSwap_disso_clauses (idx1 idx2 : Nat) (cls1Name cls2Name : String)
    (idxList1 idxList2 : List Nat) (allData : List Student) (headers : List String)
    (ctx : Option UltCtx)
    (h : canSwapStudents_Ultimate idx1 idx2 cls1Name cls2Name idxList1 idxList2 allData
      headers ctx = true) :
    (dissoOfIdx allData (jsIndexOf headers "DISSO") idx1 ≠ "" →
      ∀ i ∈ idxList2, i ≠ idx2 →
        dissoOfIdx allData (jsIndexOf headers "DISSO") i
          ≠ dissoOfIdx allData (jsIndexOf headers "DISSO") idx1)
    ∧ (dissoOfIdx allData (jsIndexOf headers "DISSO") idx2 ≠ "" →
      ∀ i ∈ idxList1, i ≠ idx1 →
        dissoOfIdx allData (jsIndexOf headers "DISSO") i
          ≠ dissoOfIdx allData (jsIndexOf headers "DISSO") idx2) := by
  unfold canSwapStudents_Ultimate at h
  dsimp only at h
  simp only [Bool.and_eq_true] at h
  have h1 := h.1.2
  have h2 := h.2
  constructor
  · intro hd i hi hine heq
    rw [Bool.not_eq_true'] at h1
    rcases Bool.and_eq_false_iff.mp h1 with hf | hf
    · exact hd (by simpa using hf)
    · have hpi := List.any_eq_false.mp hf i hi
      rw [heq] at hpi
      refine hpi ?_
      simp [hine, hd]
  · intro hd i hi hine heq
    rw [Bool.not_eq_true'] at h2
    rcases Bool.and_eq_false_iff.mp h2 with hf | hf
    · exact hd (by simpa using hf)
    · have hpi := List.any_eq_false.mp hf i hi
      rw [heq] at hpi
      refine hpi ?_
      simp [hine, hd]

/-- C1 (amended).  When the DISSO column is present, every applied two-way
swap preserves the antinomy invariant in every class, and every applied
three-way rotation preserves it in the two receiving classes that were
feasibility-checked (`c2`, receiving `a`, and `c3`, receiving `b`); the third
leg (`c` entering `c1`) is not checked by the source and can violate the
invariant, as the counterexample shows.  (A positive oracle answer already
implies the DISSO column is present.) -/
theorem C1_antinomy_invariant :
    (∀ (byClass : List (String × List Nat)) (allData : List Student) (headers : List String)
      (globalStats : GlobalStats) (ctx : Option UltCtx) (sampleDraws : List (Nat × Nat))
      (bs : BestSwap) (cls1Name cls2Name : String),
      (byClass.map Prod.fst).Nodup → cls1Name ≠ cls2Name →
      findBestSwapBetween_Ultimate cls1Name cls2Name allData byClass headers globalStats ctx
        sampleDraws = some bs →
      (∀ e ∈ byClass, noDissoDup allData (jsIndexOf headers "DISSO") e.2) →
      ∀ e ∈ applySwap_Ultimate byClass bs, noDissoDup allData (jsIndexOf headers "DISSO") e.2)
    ∧ (∀ (byClass : List (String × List Nat)) (allData : List Student)
      (globalStats : GlobalStats) (ctx : Option UltCtx) (headers : List String)
      (draws : List ((Nat × Nat × Nat) × List (Nat × Nat × Nat))) (g : ℚ) (rot : Rot3),
      find3Way_Ultimate byClass allData globalStats ctx headers draws = (g, some rot) →
      (∀ e ∈ byClass, noDissoDup allData (jsIndexOf headers "DISSO") e.2) →
      noDissoDup allData (jsIndexOf headers "DISSO")
        (((objGet byClass rot.c2).getD []).filter (fun t => t != rot.b) ++ [rot.a])
      ∧ noDissoDup allData (jsIndexOf headers "DISSO")
        (((objGet byClass rot.c3).getD []).filter (fun t => t != rot.c) ++ [rot.b])) := by
  constructor
  · intro byClass allData headers globalStats ctx sampleDraws bs cls1Name cls2Name hnd hne
      hfind hinv
    obtain ⟨hc1, hc2, -, -, hcs, -, -⟩ :=
      findBestSwap_spec cls1Name cls2Name allData byClass headers globalStats ctx
        sampleDraws bs hfind
    obtain ⟨hcl1, hcl2⟩ := canSwap_disso_clauses _ _ _ _ _ _ _ _ _ hcs
    intro e' he'
    unfold applySwap_Ultimate at he'
    dsimp only at he'
    rw [hc1, hc2] at he'
    unfold updateClass at he'
    rcases List.mem_map.mp he' with ⟨e1, he1, heq2⟩
    rcases List.mem_map.mp he1 with ⟨e0, he0, heq1⟩
    by_cases h01 : e0.1 = cls1Name
    · rw [if_pos h01] at heq1
      have he1fst : e1.1 = cls1Name := by rw [← heq1]; exact h01
      rw [if_neg (by rw [he1fst]; exact hne)] at heq2
      have hval : e0.2 = (objGet byClass cls1Name).getD [] := by
        have hsome := objGet_of_mem_nodup hnd
          (show (cls1Name, e0.2) ∈ byClass from by rw [← h01]; simpa using he0)
        rw [hsome]
        rfl
      have he'2 : e'.2 = ((objGet byClass cls1Name).getD []).filter
          (fun t => t != bs.idx1) ++ [bs.idx2] := by
        rw [← heq2, ← heq1]
        dsimp only
        rw [hval]
      rw [he'2]
      exact noDissoDup_swap _ _ _ bs.idx1 bs.idx2 (hval ▸ hinv e0 he0) hcl2
    · rw [if_neg h01] at heq1
      by_cases h02 : e1.1 = cls2Name
      · rw [if_pos h02] at heq2
        have h02' : e0.1 = cls2Name := by rw [← heq1] at h02; exact h02
        have hval : e0.2 = (objGet byClass cls2Name).getD [] := by
          have hsome := objGet_of_mem_nodup hnd
            (show (cls2Name, e0.2) ∈ byClass from by rw [← h02']; simpa using he0)
          rw [hsome]
          rfl
        have he'2 : e'.2 = ((objGet byClass cls2Name).getD []).filter
            (fun t => t != bs.idx2) ++ [bs.idx1] := by
          rw [← heq2, ← heq1]
          dsimp only
          rw [hval]
        rw [he'2]
        exact noDissoDup_swap _ _ _ bs.idx2 bs.idx1 (hval ▸ hinv e0 he0) hcl1
      · rw [if_neg h02] at heq2
        rw [← heq2, ← heq1]
        exact hinv e0 he0
  · intro byClass allData globalStats ctx headers draws g rot hfind hinv
    obtain ⟨-, -, -, -, hs2, hs3, -, -, -, hcs1, hcs2, -⟩ :=
      find3Way_spec byClass allData globalStats ctx headers draws g rot hfind
    have hm2 := objGet_mem (objGet_eq_some_getD hs2)
    have hm3 := objGet_mem (objGet_eq_some_getD hs3)
    have hd2 := hinv _ hm2
    have hd3 := hinv _ hm3
    obtain ⟨hcl1a, -⟩ := canSwap_disso_clauses _ _ _ _ _ _ _ _ _ hcs1
    obtain ⟨hcl2a, -⟩ := canSwap_disso_clauses _ _ _ _ _ _ _ _ _ hcs2
    exact ⟨noDissoDup_swap _ _ _ rot.b rot.a hd2 hcl1a,
           noDissoDup_swap _ _ _ rot.c rot.b hd3 hcl2a⟩

/-- Scores of the rotation scenario, before. -/
lemma rot_score_A : calculateScore_Ultimate [0, 1] rotData rotStats "A" none = 2375 := by
  simp +decide [calculateScore_Ultimate, ctxTarget, jsOr, ULTIMATE_CONFIG, rotData, rotStats]
  norm_num [abs_of_nonneg, abs_of_nonpos]

/-- Score of rotation-scenario class B, before. -/
lemma rot_score_B : calculateScore_Ultimate [2] rotData rotStats "B" none = 2000 := by
  simp +decide [calculateScore_Ultimate, ctxTarget, jsOr, ULTIMATE_CONFIG, rotData, rotStats]
  norm_num

/-- Score of rotation-scenario class C, before. -/
lemma rot_score_C : calculateScore_Ultimate [3] rotData rotStats "C" none = 1250 := by
  simp +decide [calculateScore_Ultimate, ctxTarget, jsOr, ULTIMATE_CONFIG, rotData, rotStats]
  norm_num [abs_of_nonneg, abs_of_nonpos]

/-- Score of rotation-scenario class A, after the rotation. -/
lemma rot_score_A2 : calculateScore_Ultimate [1, 3] rotData rotStats "A" none = 500 := by
  simp +decide [calculateScore_Ultimate, ctxTarget, jsOr, ULTIMATE_CONFIG, rotData, rotStats]
  norm_num [abs_of_nonneg, abs_of_nonpos]

/-- Score of rotation-scenario class B, after the rotation. -/
lemma rot_score_B2 : calculateScore_Ultimate [0] rotData rotStats "B" none = 2000 := by
  simp +decide [calculateScore_Ultimate, ctxTarget, jsOr, ULTIMATE_CONFIG, rotData, rotStats]
  norm_num

/-- Score of rotation-scenario class C, after the rotation. -/
lemma rot_score_C2 : calculateScore_Ultimate [2] rotData rotStats "C" none = 2000 := by
  simp +decide [calculateScore_Ultimate, ctxTarget, jsOr, ULTIMATE_CONFIG, rotData, rotStats]
  norm_num

/-- The three-way pass of the rotation scenario selects the rotation
`0 : A → B`, `2 : B → C`, `3 : C → A` with gain 1125. -/
lemma rot_find3Way :
    find3Way_Ultimate rotByClass rotData rotStats none rotHeaders
      [((0, 1, 2), [(0, 0, 0)])] = (1125, some ⟨0, 2, 3, "A", "B", "C"⟩) := by
  unfold find3Way_Ultimate
  rw [List.foldl_cons, List.foldl_nil]
  unfold rot3TripleStep
  dsimp only
  have hc1 : (rotByClass.map Prod.fst).getD (0 % (rotByClass.map Prod.fst).length) ""
      = "A" := by decide
  have hc2 : (rotByClass.map Prod.fst).getD (1 % (rotByClass.map Prod.fst).length) ""
      = "B" := by decide
  have hc3 : (rotByClass.map Prod.fst).getD (2 % (rotByClass.map Prod.fst).length) ""
      = "C" := by decide
  rw [hc1, hc2, hc3]
  have hg1 : (("A" == "B" || "B" == "C" || "A" == "C") : Bool) = false := by decide
  rw [hg1]
  simp only [Bool.false_eq_true, if_false]
  have hl1 : (objGet rotByClass "A").getD [] = [0, 1] := by decide
  have hl2 : (objGet rotByClass "B").getD [] = [2] := by decide
  have hl3 : (objGet rotByClass "C").getD [] = [3] := by decide
  rw [hl1, hl2, hl3]
  have hg2 : (([0, 1] : List Nat).isEmpty || ([2] : List Nat).isEmpty
      || ([3] : List Nat).isEmpty) = false := by decide
  rw [hg2]
  simp only [Bool.false_eq_true, if_false]
  rw [rot_score_A, rot_score_B, rot_score_C]
  rw [List.foldl_cons, List.foldl_nil]
  unfold rot3StudentStep
  dsimp only
  have ha : ([0, 1] : List Nat).getD (0 % ([0, 1] : List Nat).length) 0 = 0 := by decide
  have hb : ([2] : List Nat).getD (0 % ([2] : List Nat).length) 0 = 2 := by decide
  have hc : ([3] : List Nat).getD (0 % ([3] : List Nat).length) 0 = 3 := by decide
  rw [ha, hb, hc]
  have hfix : (isFixed (rotData.getD 0 defaultStudent) || isFixed (rotData.getD 2 defaultStudent)
      || isFixed (rotData.getD 3 defaultStudent)) = false := by decide
  rw [hfix]
  simp only [Bool.false_eq_true, if_false]
  have hcan1 : canSwapStudents_Ultimate 0 2 "A" "B" [0, 1] [2] rotData rotHeaders none
      = true := by decide
  have hcan2 : canSwapStudents_Ultimate 2 3 "B" "C" [2] [3] rotData rotHeaders none
      = true := by decide
  rw [hcan1, hcan2]
  simp only [Bool.not_true, Bool.false_eq_true, if_false]
  have ht1 : (([0, 1] : List Nat).filter (fun x => x != 0) ++ [3]) = [1, 3] := by decide
  have ht2 : (([2] : List Nat).filter (fun x => x != 2) ++ [0]) = [0] := by decide
  have ht3 : (([3] : List Nat).filter (fun x => x != 3) ++ [2]) = [2] := by decide
  rw [ht1, ht2, ht3]
  rw [rot_score_A2, rot_score_B2, rot_score_C2]
  norm_num

/-- Counterexample to C1 as stated: the initial assignment satisfies the
antinomy invariant, the three-way pass selects and would apply the rotation
(both pairwise checks pass, gain 1125 > 0.001), yet the resulting class A
holds two students with the same non-empty DISSO code X, because the third
leg (student 3 entering class A) is never checked. -/
theorem C1_counterexample :
    (∀ e ∈ rotByClass, noDissoDup rotData (jsIndexOf rotHeaders "DISSO") e.2)
    ∧ find3Way_Ultimate rotByClass rotData rotStats none rotHeaders [((0, 1, 2), [(0, 0, 0)])]
        = (1125, some ⟨0, 2, 3, "A", "B", "C"⟩)
    ∧ ¬ noDissoDup rotData (jsIndexOf rotHeaders "DISSO")
        ((objGet (applyRot3 rotByClass ⟨0, 2, 3, "A", "B", "C"⟩) "A").getD []) := by
  refine ⟨?_, rot_find3Way, ?_⟩
  · intro e he
    simp only [rotByClass, List.mem_cons, List.not_mem_nil, or_false] at he
    rcases he with h | h | h <;> (subst h; unfold noDissoDup; decide)
  · unfold noDissoDup
    decide

/-- Witness for C1 (amended): the applied demo swap preserves the antinomy
invariant in every class. -/
theorem C1_antinomy_invariant_witness :
    ∀ e ∈ applySwap_Ultimate demoByClass ⟨0, 2, "A", "B", 4000, "Swap Std/Std"⟩,
      noDissoDup demoData (jsIndexOf demoHeaders "DISSO") e.2 :=
  C1_antinomy_invariant.1 demoByClass demoData demoHeaders demoStats none [(0, 0)]
    ⟨0, 2, "A", "B", 4000, "Swap Std/Std"⟩ "A" "B" (by decide) (by decide) demo_findBestSwap
    (by
      intro e he
      simp only [demoByClass, List.mem_cons, List.not_mem_nil, or_false] at he
      rcases he with h | h | h <;> (subst h; unfold noDissoDup; decide))

/-- C5.  In the three-way phase, a sampled student triple is scored (its
rotation gain is computed and compared to the current best) if and only if
none of the three students is fixed and the two pairwise feasibility checks
`(a, b)` across `(c1, c2)` and `(b, c)` across `(c2, c3)` both return true:
any failure skips the triple unchanged (part one), and when the guards pass
the step is exactly the gain comparison (part two).  The third leg is never
checked: in the concrete rotation scenario the feasibility check of `c`
entering `c1` returns false, yet the pass selects the rotation (part
three). -/
theorem C5_three_way_scoring_condition :
    (∀ (c1 c2 c3 : String) (l1 l2 l3 : List Nat) (allData : List Student)
      (globalStats : GlobalStats) (ctx : Option UltCtx) (headers : List String)
      (scoreBefore3 : ℚ) (acc : ℚ × Option Rot3) (draw : Nat × Nat × Nat),
      (isFixed (allData.getD (l1.getD (draw.1 % l1.length) 0) defaultStudent) = true
        ∨ isFixed (allData.getD (l2.getD (draw.2.1 % l2.length) 0) defaultStudent) = true
        ∨ isFixed (allData.getD (l3.getD (draw.2.2 % l3.length) 0) defaultStudent) = true
        ∨ canSwapStudents_Ultimate (l1.getD (draw.1 % l1.length) 0)
            (l2.getD (draw.2.1 % l2.length) 0) c1 c2 l1 l2 allData headers ctx = false
        ∨ canSwapStudents_Ultimate (l2.getD (draw.2.1 % l2.length) 0)
            (l3.getD (draw.2.2 % l3.length) 0) c2 c3 l2 l3 allData headers ctx = false) →
      rot3StudentStep c1 c2 c3 l1 l2 l3 allData globalStats ctx headers scoreBefore3 acc draw
        = acc)
    ∧ (∀ (c1 c2 c3 : String) (l1 l2 l3 : List Nat) (allData : List Student)
      (globalStats : GlobalStats) (ctx : Option UltCtx) (headers : List String)
      (scoreBefore3 : ℚ) (acc : ℚ × Option Rot3) (draw : Nat × Nat × Nat),
      isFixed (allData.getD (l1.getD (draw.1 % l1.length) 0) defaultStudent) = false →
      isFixed (allData.getD (l2.getD (draw.2.1 % l2.length) 0) defaultStudent) = false →
      isFixed (allData.getD (l3.getD (draw.2.2 % l3.length) 0) defaultStudent) = false →
      canSwapStudents_Ultimate (l1.getD (draw.1 % l1.length) 0)
        (l2.getD (draw.2.1 % l2.length) 0) c1 c2 l1 l2 allData headers ctx = true →
      canSwapStudents_Ultimate (l2.getD (draw.2.1 % l2.length) 0)
        (l3.getD (draw.2.2 % l3.length) 0) c2 c3 l2 l3 allData headers ctx = true →
      rot3StudentStep c1 c2 c3 l1 l2 l3 allData globalStats ctx headers scoreBefore3 acc draw
        = (if scoreBefore3
              - (calculateScore_Ultimate
                  (l1.filter (fun x => x != l1.getD (draw.1 % l1.length) 0)
                    ++ [l3.getD (draw.2.2 % l3.length) 0]) allData globalStats c1 ctx
                + calculateScore_Ultimate
                  (l2.filter (fun x => x != l2.getD (draw.2.1 % l2.length) 0)
                    ++ [l1.getD (draw.1 % l1.length) 0]) allData globalStats c2 ctx
                + calculateScore_Ultimate
                  (l3.filter (fun x => x != l3.getD (draw.2.2 % l3.length) 0)
                    ++ [l2.getD (draw.2.1 % l2.length) 0]) allData globalStats c3 ctx)
              > acc.1
           then (scoreBefore3
              - (calculateScore_Ultimate
                  (l1.filter (fun x => x != l1.getD (draw.1 % l1.length) 0)
                    ++ [l3.getD (draw.2.2 % l3.length) 0]) allData globalStats c1 ctx
                + calculateScore_Ultimate
                  (l2.filter (fun x => x != l2.getD (draw.2.1 % l2.length) 0)
                    ++ [l1.getD (draw.1 % l1.length) 0]) allData globalStats c2 ctx
                + calculateScore_Ultimate
                  (l3.filter (fun x => x != l3.getD (draw.2.2 % l3.length) 0)
                    ++ [l2.getD (draw.2.1 % l2.length) 0]) allData globalStats c3 ctx),
              some ⟨l1.getD (draw.1 % l1.length) 0, l2.getD (draw.2.1 % l2.length) 0,
                l3.getD (draw.2.2 % l3.length) 0, c1, c2, c3⟩)
           else acc))
    ∧ (canSwapStudents_Ultimate 3 0 "C" "A" [3] [0, 1] rotData rotHeaders none = false
      ∧ find3Way_Ultimate rotByClass rotData rotStats none rotHeaders
          [((0, 1, 2), [(0, 0, 0)])] = (1125, some ⟨0, 2, 3, "A", "B", "C"⟩)) := by
  refine ⟨?_, ?_, by decide, rot_find3Way⟩
  · intro c1 c2 c3 l1 l2 l3 allData globalStats ctx headers scoreBefore3 acc draw hskip
    unfold rot3StudentStep
    dsimp only
    cases hfg : (isFixed (allData.getD (l1.getD (draw.1 % l1.length) 0) defaultStudent)
        || isFixed (allData.getD (l2.getD (draw.2.1 % l2.length) 0) defaultStudent)
        || isFixed (allData.getD (l3.getD (draw.2.2 % l3.length) 0) defaultStudent)) with
    | true => simp
    | false =>
      simp only [Bool.false_eq_true, if_false]
      simp only [Bool.or_eq_false_iff] at hfg
      rcases hskip with h | h | h | h | h
      · rw [h] at hfg; simp at hfg
      · rw [h] at hfg; simp at hfg
      · rw [h] at hfg; simp at hfg
      · rw [h]
        simp
      · cases hc1 : canSwapStudents_Ultimate (l1.getD (draw.1 % l1.length) 0)
            (l2.getD (draw.2.1 % l2.length) 0) c1 c2 l1 l2 allData headers ctx with
        | false => simp
        | true =>
          rw [h]
          simp
  · intro c1 c2 c3 l1 l2 l3 allData globalStats ctx headers scoreBefore3 acc draw
      hf1 hf2 hf3 hc1 hc2
    unfold rot3StudentStep
    dsimp only
    rw [hf1, hf2, hf3, hc1, hc2]
    simp only [Bool.or_self, Bool.false_eq_true, if_false, Bool.not_true]

/-- Witness for C5: a sampled triple headed by the fixed demo student is
skipped unchanged. -/
theorem C5_three_way_scoring_condition_witness :
    rot3StudentStep "C" "A" "B" [4] [0, 1] [2, 3] demoData demoStats none demoHeaders 0
      ((1/1000 : ℚ), none) (0, 0, 0) = ((1/1000 : ℚ), none) :=
  C5_three_way_scoring_condition.1 "C" "A" "B" [4] [0, 1] [2, 3] demoData demoStats none
    demoHeaders 0 ((1/1000 : ℚ), none) (0, 0, 0) (Or.inl (by decide))

/-- C9.  Evaluation of the run at the failing input: a snapshot with zero
students loaded from no usable sheet (so the headers reference stayed null).
Both optimization loops terminate immediately with zero swaps, but the final
validation dereferences the null headers (`headers.indexOf` at line 753) and
the run throws a TypeError instead of returning `{ok: true, swapsApplied: 0}`.
With a non-null (even empty-cohort) header row the run does return
`ok = true` with zero swaps, as the specification demands. -/
theorem C9_empty_cohort_crash :
    Phase4_Ultimate_Run [] [] none none [] []
      = Except.error "TypeError: Cannot read properties of null (reading indexOf)"
    ∧ Phase4_Ultimate_Run [] [] (some ["DISSO"]) none [] []
      = Except.ok ⟨true, 0, 0, true⟩ := by
  constructor
  · rfl
  · rfl

/-- Rotated-class scores for the fixed-student skip scenario. -/
lemma demo_score3_C : calculateScore_Ultimate [2] demoData demoStats "C" none = 4000 := by
  simp +decide [calculateScore_Ultimate, ctxTarget, jsOr, ULTIMATE_CONFIG, demoData,
    demoStudent, demoStats]
  norm_num [abs_of_nonneg]

/-- Score of the receiving class A in the fixed-student skip scenario. -/
lemma demo_score3_A : calculateScore_Ultimate [1, 4] demoData demoStats "A" none = 4000 := by
  simp +decide [calculateScore_Ultimate, ctxTarget, jsOr, ULTIMATE_CONFIG, demoData,
    demoStudent, demoStats]
  norm_num [abs_of_nonneg]

/-- Score of the receiving class B in the fixed-student skip scenario. -/
lemma demo_score3_B : calculateScore_Ultimate [3, 0] demoData demoStats "B" none = 2000 := by
  simp +decide [calculateScore_Ultimate, ctxTarget, jsOr, ULTIMATE_CONFIG, demoData,
    demoStudent, demoStats]
  norm_num [abs_of_nonneg]

/-- Counterexample to C5 as stated: for the sampled triple (4 ∈ C, 0 ∈ A,
2 ∈ B) both pairwise feasibility checks return true and the rotation would
have improved the best gain by far, yet the triple is not scored (the step
keeps the accumulator, storing no candidate) because student 4 is fixed — the
iff of the claim omits the mobility guard of line 124. -/
theorem C5_counterexample :
    canSwapStudents_Ultimate 4 0 "C" "A" [4] [0, 1] demoData demoHeaders none = true
    ∧ canSwapStudents_Ultimate 0 2 "A" "B" [0, 1] [2, 3] demoData demoHeaders none = true
    ∧ rot3StudentStep "C" "A" "B" [4] [0, 1] [2, 3] demoData demoStats none demoHeaders
        1000000 ((1/1000 : ℚ), none) (0, 0, 0) = ((1/1000 : ℚ), none)
    ∧ (1000000 : ℚ)
        - (calculateScore_Ultimate [2] demoData demoStats "C" none
          + calculateScore_Ultimate [1, 4] demoData demoStats "A" none
          + calculateScore_Ultimate [3, 0] demoData demoStats "B" none)
        > 1/1000 := by
  refine ⟨by decide, by decide, ?_, ?_⟩
  · unfold rot3StudentStep
    dsimp only
    have hfix : (isFixed (demoData.getD (([4] : List Nat).getD (0 % ([4] : List Nat).length) 0)
          defaultStudent)
        || isFixed (demoData.getD (([0, 1] : List Nat).getD (0 % ([0, 1] : List Nat).length) 0)
          defaultStudent)
        || isFixed (demoData.getD (([2, 3] : List Nat).getD (0 % ([2, 3] : List Nat).length) 0)
          defaultStudent)) = true := by decide
    rw [hfix]
    simp
  · rw [demo_score3_C, demo_score3_A, demo_score3_B]
    norm_num
